import Mathlib

/-!
# CULT staking hook

A shallow embedding of `src/hooks/cult_staking_hook.c` and theorems about it.

The C function `hook` talks to its host through `hookapi.h`, which is not part
of the repository.  The host calls are modelled as follows.

* What the host hands to one invocation (transaction type, hook parameters,
  transaction fields, ledger time) is a record `Tx`.
* The persistent key-value store is a record `HookState` with one cell per key
  the source uses (`STATE_KEY_TOTAL_STAKED`, `STATE_KEY_NFT_INFO`,
  `STATE_KEY_REWARDS`, `STATE_KEY_YEARLY_EMISSION`).
* `accept` and `rollback` end the invocation.  `hook` returns a `Result` that
  records which of the two ended it, the message and code passed, the working
  state at that point and the events emitted so far.  The host commits the
  working state of an accepted invocation and discards that of a rolled back
  one (`step`).

Machine integers are `Nat`/`Int` with explicit reduction modulo `2^w` at the
places where the source narrows or may wrap.
-/

namespace CultStaking

/-! ## Constants of the source -/

def DAILY_EMISSION_YEAR_1 : Nat := 205479000000
def DAILY_EMISSION_YEAR_2 : Nat := 342466000000
def DAILY_EMISSION_YEAR_3 : Nat := 410958000000
def DAILY_EMISSION_YEAR_4 : Nat := 342466000000
def DAILY_EMISSION_YEAR_5 : Nat := 202740000000

def INNER_CIRCLE_BONUS : Nat := 120
def EARLY_UNSTAKE_PENALTY : Nat := 75
def MIN_STAKE_DURATION : Nat := 604800

/-- Modelled from the spec: `tfSellNFToken` is declared in `hookapi.h`, which is
missing from the repository; the sell flag of an NFT offer is bit `0x00000001`. -/
def tfSellNFToken : Nat := 1

/-! ## Machine integers -/

/-- Conversion of a signed value to `uint64_t`. -/
def toU64 (x : Int) : Nat := (x % 2 ^ 64).toNat

/-- Result of an `int64_t` operation whose exact value is `x`, in two's
complement (what the WebAssembly target of a hook computes). -/
def wrapS64 (x : Int) : Int := (x + 2 ^ 63) % 2 ^ 64 - 2 ^ 63

/-! ## Emission schedule -/

/-- The source function `get_daily_emission`: a `switch` on the year. -/
def get_daily_emission (year : Nat) : Nat :=
  match year with
  | 1 => DAILY_EMISSION_YEAR_1
  | 2 => DAILY_EMISSION_YEAR_2
  | 3 => DAILY_EMISSION_YEAR_3
  | 4 => DAILY_EMISSION_YEAR_4
  | 5 => DAILY_EMISSION_YEAR_5
  | _ => 0

/-! ## What the host hands to an invocation -/

/-- Modelled from the spec: the buffer filled by `otxn_type` and the macro
`BUFFER_EQUAL_16` that classifies it come from `hookapi.h`, which is missing
from the repository.  The transaction kind is one of the three names the source
compares against, or anything else. -/
inductive TxType
  | NFTokenCreateOffer
  | NFTokenAcceptOffer
  | Payment
  | Other
  deriving DecidableEq, Repr

/-- Everything one invocation of `hook` obtains from its host.

* `txtype_len`, `txtype`: return value of `otxn_type` and the kind it wrote.
* `staking_year`: the value assigned to `uint64_t current_year`.
* `flags0`: the byte `flags[0]` of the `sfFlags` field.
* `nft_id`: the 32 bytes of `sfNFTokenID` (read by the source and not used).
* `ledger_last_time`: return value of `ledger_last_time()`.
* `inner_circle`: return value of `hook_param` for `inner_circle`, before it is
  narrowed to `uint8_t`.
* `currency`: the `sfCurrency` field, compared with `"CULT"`.
* `stake_time_init`, `rewards_init`: what the locals `stake_time` and `rewards`
  hold before `state_get` is called on them (they are not initialised by the
  source, and `state_get` writes nothing when the key is absent). -/
structure Tx where
  txtype_len : Int
  txtype : TxType
  staking_year : Nat
  flags0 : Nat
  nft_id : List Nat
  ledger_last_time : Nat
  inner_circle : Nat
  currency : String
  stake_time_init : Nat
  rewards_init : Nat

/-! ## Persistent state -/

/-- The hook state: one cell per key of the source.  The stake record lives
under the two fixed keys `"nft_info:"` (timestamp) and `"rewards:"` (reward
rate); a cell is `none` when its key is absent. -/
structure HookState where
  total_staked : Int
  nft_info : Option Nat
  rewards : Option Nat
  yearly_emission : Option Nat
  deriving DecidableEq, Repr

/-- The state at program genesis: counter zero, no records. -/
def genesis : HookState :=
  { total_staked := 0, nft_info := none, rewards := none, yearly_emission := none }

/-- Number of stake records stored: the record is present when its timestamp
cell is. -/
def recordCount (s : HookState) : Nat :=
  if s.nft_info.isSome then 1 else 0

/-- No stake record is stored: both cells of the record are absent. -/
def noRecord (s : HookState) : Prop :=
  s.nft_info = none ∧ s.rewards = none

instance (s : HookState) : Decidable (noRecord s) := by
  unfold noRecord; infer_instance

/-- An emitted event: its name and the 64-bit payload. -/
abbrev Event := String × Nat

/-- How an invocation ended: `accepted` tells `accept` from `rollback`; `msg`
and `code` are the arguments passed; `state` and `emitted` are the working
state and the events emitted when the invocation ended. -/
structure Result where
  accepted : Bool
  msg : String
  code : Int
  state : HookState
  emitted : List Event
  deriving DecidableEq, Repr

/-- Modelled from the spec: `rollback` (from the missing `hookapi.h`) ends the
invocation with a reject outcome. -/
def rollback (msg : String) (code : Int) (s : HookState) (ev : List Event) : Result :=
  { accepted := false, msg := msg, code := code, state := s, emitted := ev }

/-- Modelled from the spec: `accept` (from the missing `hookapi.h`) ends the
invocation with an accept outcome. -/
def accept (msg : String) (code : Int) (s : HookState) (ev : List Event) : Result :=
  { accepted := true, msg := msg, code := code, state := s, emitted := ev }

/-- Modelled from the spec: `state_get` (from the missing `hookapi.h`) copies the
stored value into the buffer when the key is present and leaves the buffer as
it was when the key is absent. -/
def state_get (cell : Option Nat) (buf : Nat) : Nat :=
  match cell with
  | some v => v
  | none => buf

/-! ## The hook -/

/-- The source function `hook` of `cult_staking_hook.c`. -/
def hook (s : HookState) (tx : Tx) : Result :=
  if tx.txtype_len < 0 then
    rollback "Error getting transaction type" tx.txtype_len s []
  else
    let current_year := tx.staking_year
    if current_year < 1 ∨ current_year > 5 then
      rollback "Invalid staking year" (-1) s []
    else
      let daily_emission := get_daily_emission current_year
      if tx.txtype = TxType.NFTokenCreateOffer then
        if tx.flags0 &&& tfSellNFToken = 0 then
          rollback "Invalid staking operation" (-1) s []
        else
          -- uint32_t now = ledger_last_time(); state_set(nft_info)
          let now := tx.ledger_last_time % 2 ^ 32
          let s1 := { s with nft_info := some now }
          -- total_staked++
          let total_staked := wrapS64 (s1.total_staked + 1)
          let s2 := { s1 with total_staked := total_staked }
          let reward_per_nft :=
            if total_staked > 0 then daily_emission / toU64 total_staked else 0
          -- uint8_t is_inner_circle = hook_param(...)
          let is_inner_circle := tx.inner_circle % 2 ^ 8
          let reward_per_nft :=
            if is_inner_circle ≠ 0 then
              (reward_per_nft * INNER_CIRCLE_BONUS) % 2 ^ 64 / 100
            else reward_per_nft
          let s3 := { s2 with rewards := some reward_per_nft }
          accept "NFT staked successfully" 0 s3 [("NFT Staked", reward_per_nft)]
      else if tx.txtype = TxType.NFTokenAcceptOffer then
        let stake_time := state_get s.nft_info tx.stake_time_init % 2 ^ 32
        let now := tx.ledger_last_time % 2 ^ 32
        -- uint32_t duration = now - stake_time
        let duration := (now + 2 ^ 32 - stake_time) % 2 ^ 32
        let rewards := state_get s.rewards tx.rewards_init % 2 ^ 64
        let early : Bool := decide (duration < MIN_STAKE_DURATION)
        let rewards :=
          if early then (rewards * EARLY_UNSTAKE_PENALTY) % 2 ^ 64 / 100 else rewards
        let ev : List Event :=
          if early then [("Early Unstake Penalty", rewards)] else []
        -- total_staked--
        let total_staked := wrapS64 (s.total_staked - 1)
        let s1 := { s with total_staked := total_staked }
        let s2 := { s1 with nft_info := none }
        let s3 := { s2 with rewards := none }
        accept "NFT unstaked successfully" 0 s3 (ev ++ [("NFT Unstaked", rewards)])
      else if tx.txtype = TxType.Payment then
        if tx.currency ≠ "CULT" then
          rollback "Invalid currency for rewards" (-1) s []
        else
          let total_staked := s.total_staked
          if total_staked = 0 then
            rollback "No staked NFTs" (-1) s []
          else
            let reward_per_nft := daily_emission / toU64 total_staked
            let s1 := { s with yearly_emission := some daily_emission }
            accept "Rewards distributed successfully" 0 s1
              [("Daily Reward Distribution", reward_per_nft)]
      else
        rollback "Unsupported transaction type" (-1) s []

/-! ## The step relation -/

/-- One transaction processed by the host: the working state of an accepted
invocation is committed, that of a rolled back one is discarded. -/
def step (s : HookState) (tx : Tx) : HookState :=
  if (hook s tx).accepted then (hook s tx).state else s

/-- A finite sequence of transactions processed in order. -/
def run (s : HookState) (txs : List Tx) : HookState :=
  txs.foldl step s

/-- Number of transactions of kind `k` that are accepted while `txs` is
processed in order from `s`. -/
def acceptedOfType (k : TxType) : HookState → List Tx → Nat
  | _, [] => 0
  | s, tx :: txs =>
    (if (hook s tx).accepted = true ∧ tx.txtype = k then 1 else 0)
      + acceptedOfType k (step s tx) txs

/-- Every accepted Stake of the sequence is processed while no stake record is
stored, and every accepted Unstake while one is stored. -/
def alternating : HookState → List Tx → Bool
  | _, [] => true
  | s, tx :: txs =>
    (if (hook s tx).accepted = true ∧ tx.txtype = TxType.NFTokenCreateOffer then
        s.nft_info.isNone
      else if (hook s tx).accepted = true ∧ tx.txtype = TxType.NFTokenAcceptOffer then
        s.nft_info.isSome
      else true)
    && alternating (step s tx) txs

/-- A Stake that passes every check of `hook`: the type was read, the kind is
offer creation, the sell flag is set and the staking year is in [1,5]. -/
def validStake (tx : Tx) : Prop :=
  0 ≤ tx.txtype_len ∧ tx.txtype = TxType.NFTokenCreateOffer ∧
  tx.flags0 &&& tfSellNFToken ≠ 0 ∧ (1 ≤ tx.staking_year ∧ tx.staking_year ≤ 5)

instance (tx : Tx) : Decidable (validStake tx) := by
  unfold validStake; infer_instance

/-! ## The stake-rate computation -/

/-- The computation of the local `reward_per_nft` in the Stake branch of `hook`
(the statements between the counter write and the write of the reward rate):
the daily emission divided by the counter after the increment when that is
positive, then the inner-circle bonus when `is_inner_circle` is nonzero. -/
def stake_reward_per_nft (daily_emission : Nat) (total_staked : Int)
    (is_inner_circle : Nat) : Nat :=
  let reward_per_nft :=
    if total_staked > 0 then daily_emission / toU64 total_staked else 0
  if is_inner_circle ≠ 0 then
    (reward_per_nft * INNER_CIRCLE_BONUS) % 2 ^ 64 / 100
  else reward_per_nft

/-! ## The dynamic emission hook -/

namespace DynamicEmission

/-- What an invocation of the dynamic emission hook leaves behind: the value it
returns and the events it emitted (name, currency, amount). -/
structure Outcome where
  ret : Int
  emitted : List (String × String × Nat)
  deriving DecidableEq, Repr

/-- The source function `hook` of `dynamic_emission_hook.c`.  `active_nfts` is
the value assigned to `uint64_t activeStakedNFTs`; `inner_circle` and
`early_unstake` are the values returned by `hook_param` before they are
narrowed to the `uint8_t` locals `isInnerCircle` and `isEarlyUnstake`. -/
def hook (active_nfts inner_circle early_unstake : Nat) : Outcome :=
  let totalEmission := 500000
  let activeStakedNFTs := active_nfts
  if activeStakedNFTs = 0 then
    { ret := 0, emitted := [] }
  else
    let rewardPerNFT := totalEmission / activeStakedNFTs
    let isInnerCircle := inner_circle % 2 ^ 8
    let rewardPerNFT :=
      if isInnerCircle ≠ 0 then (rewardPerNFT * 120) % 2 ^ 64 / 100 else rewardPerNFT
    let isEarlyUnstake := early_unstake % 2 ^ 8
    let rewardPerNFT :=
      if isEarlyUnstake ≠ 0 then (rewardPerNFT * 75) % 2 ^ 64 / 100 else rewardPerNFT
    { ret := 0, emitted := [("Daily Distribution", "CULT", rewardPerNFT)] }

end DynamicEmission

/-! ## Sample transactions -/

/-- A Stake: offer creation with the sell flag set. -/
def sampleStake (year inner time : Nat) : Tx :=
  { txtype_len := 16, txtype := TxType.NFTokenCreateOffer, staking_year := year,
    flags0 := 1, nft_id := List.replicate 32 7, ledger_last_time := time,
    inner_circle := inner, currency := "", stake_time_init := 0, rewards_init := 0 }

/-- An Unstake: offer acceptance for the same position. -/
def sampleUnstake (year time : Nat) : Tx :=
  { txtype_len := 16, txtype := TxType.NFTokenAcceptOffer, staking_year := year,
    flags0 := 0, nft_id := List.replicate 32 7, ledger_last_time := time,
    inner_circle := 0, currency := "", stake_time_init := 0, rewards_init := 0 }

/-- A Payment in the given currency. -/
def samplePayment (year : Nat) (currency : String) : Tx :=
  { txtype_len := 7, txtype := TxType.Payment, staking_year := year,
    flags0 := 0, nft_id := [], ledger_last_time := 0,
    inner_circle := 0, currency := currency, stake_time_init := 0, rewards_init := 0 }

/-- A Stake of a second position, with another identifier. -/
def sampleStakeB (year inner time : Nat) : Tx :=
  { txtype_len := 16, txtype := TxType.NFTokenCreateOffer, staking_year := year,
    flags0 := 1, nft_id := List.replicate 32 9, ledger_last_time := time,
    inner_circle := inner, currency := "", stake_time_init := 0, rewards_init := 0 }

/-- A transaction of a kind that `hook` does not handle. -/
def sampleOther (year : Nat) : Tx :=
  { txtype_len := 8, txtype := TxType.Other, staking_year := year,
    flags0 := 0, nft_id := [], ledger_last_time := 0,
    inner_circle := 0, currency := "", stake_time_init := 0, rewards_init := 0 }

/-- A ledger with counter 3 and a record stored. -/
def sampleLedger : HookState :=
  { total_staked := 3, nft_info := some 1000, rewards := some 5, yearly_emission := none }

/-! ## Arithmetic facts used below -/

theorem wrapS64_of_range (x : Int) (h1 : -(2 : Int) ^ 63 ≤ x) (h2 : x < 2 ^ 63) :
    wrapS64 x = x := by
  unfold wrapS64
  norm_num at h1 h2 ⊢
  omega

theorem toU64_natCast (n : Nat) (h : n < 2 ^ 64) : toU64 (n : Int) = n := by
  unfold toU64
  norm_num at h ⊢
  omega

theorem get_daily_emission_le (year : Nat) : get_daily_emission year ≤ 410958000000 := by
  match year with
  | 0 => decide
  | 1 | 2 | 3 | 4 | 5 => decide
  | n + 6 => exact Nat.zero_le _

/-- The bonus product of the stake branch does not wrap. -/
theorem bonus_no_wrap (year d : Nat) :
    (get_daily_emission year / d * INNER_CIRCLE_BONUS) % 2 ^ 64
      = get_daily_emission year / d * 120 := by
  have h1 : get_daily_emission year / d ≤ 410958000000 :=
    le_trans (Nat.div_le_self _ _) (get_daily_emission_le year)
  have h2 : get_daily_emission year / d * 120 < 2 ^ 64 := by
    norm_num
    omega
  simpa [INNER_CIRCLE_BONUS] using Nat.mod_eq_of_lt h2

/-! ## The branches of `hook` -/

theorem hook_reject_len (s : HookState) (tx : Tx) (h : tx.txtype_len < 0) :
    hook s tx = rollback "Error getting transaction type" tx.txtype_len s [] := by
  unfold hook
  rw [if_pos h]

theorem hook_reject_year (s : HookState) (tx : Tx) (hlen : 0 ≤ tx.txtype_len)
    (hy : ¬ (1 ≤ tx.staking_year ∧ tx.staking_year ≤ 5)) :
    hook s tx = rollback "Invalid staking year" (-1) s [] := by
  have hlen' : ¬ tx.txtype_len < 0 := not_lt.mpr hlen
  have hy' : tx.staking_year < 1 ∨ tx.staking_year > 5 := by omega
  unfold hook
  rw [if_neg hlen']
  simp only [if_pos hy']

theorem hook_reject_flag (s : HookState) (tx : Tx) (hlen : 0 ≤ tx.txtype_len)
    (hy : 1 ≤ tx.staking_year ∧ tx.staking_year ≤ 5)
    (hty : tx.txtype = TxType.NFTokenCreateOffer)
    (hflag : tx.flags0 &&& tfSellNFToken = 0) :
    hook s tx = rollback "Invalid staking operation" (-1) s [] := by
  have hlen' : ¬ tx.txtype_len < 0 := not_lt.mpr hlen
  have hy' : ¬ (tx.staking_year < 1 ∨ tx.staking_year > 5) := by omega
  unfold hook
  rw [if_neg hlen']
  simp only [if_neg hy', if_pos hty, if_pos hflag]

theorem hook_reject_currency (s : HookState) (tx : Tx) (hlen : 0 ≤ tx.txtype_len)
    (hy : 1 ≤ tx.staking_year ∧ tx.staking_year ≤ 5)
    (hty : tx.txtype = TxType.Payment) (hc : tx.currency ≠ "CULT") :
    hook s tx = rollback "Invalid currency for rewards" (-1) s [] := by
  have hlen' : ¬ tx.txtype_len < 0 := not_lt.mpr hlen
  have hy' : ¬ (tx.staking_year < 1 ∨ tx.staking_year > 5) := by omega
  have h1 : ¬ tx.txtype = TxType.NFTokenCreateOffer := by rw [hty]; decide
  have h2 : ¬ tx.txtype = TxType.NFTokenAcceptOffer := by rw [hty]; decide
  unfold hook
  rw [if_neg hlen']
  simp only [if_neg hy', if_neg h1, if_neg h2, if_pos hty, if_pos hc]

theorem hook_reject_empty (s : HookState) (tx : Tx) (hlen : 0 ≤ tx.txtype_len)
    (hy : 1 ≤ tx.staking_year ∧ tx.staking_year ≤ 5)
    (hty : tx.txtype = TxType.Payment) (hc : tx.currency = "CULT")
    (h0 : s.total_staked = 0) :
    hook s tx = rollback "No staked NFTs" (-1) s [] := by
  have hlen' : ¬ tx.txtype_len < 0 := not_lt.mpr hlen
  have hy' : ¬ (tx.staking_year < 1 ∨ tx.staking_year > 5) := by omega
  have h1 : ¬ tx.txtype = TxType.NFTokenCreateOffer := by rw [hty]; decide
  have h2 : ¬ tx.txtype = TxType.NFTokenAcceptOffer := by rw [hty]; decide
  have hc' : ¬ tx.currency ≠ "CULT" := not_not.mpr hc
  unfold hook
  rw [if_neg hlen']
  simp only [if_neg hy', if_neg h1, if_neg h2, if_pos hty, if_neg hc', if_pos h0]

theorem hook_reject_other (s : HookState) (tx : Tx) (hlen : 0 ≤ tx.txtype_len)
    (hy : 1 ≤ tx.staking_year ∧ tx.staking_year ≤ 5)
    (hty : tx.txtype = TxType.Other) :
    hook s tx = rollback "Unsupported transaction type" (-1) s [] := by
  have hlen' : ¬ tx.txtype_len < 0 := not_lt.mpr hlen
  have hy' : ¬ (tx.staking_year < 1 ∨ tx.staking_year > 5) := by omega
  have h1 : ¬ tx.txtype = TxType.NFTokenCreateOffer := by rw [hty]; decide
  have h2 : ¬ tx.txtype = TxType.NFTokenAcceptOffer := by rw [hty]; decide
  have h3 : ¬ tx.txtype = TxType.Payment := by rw [hty]; decide
  unfold hook
  rw [if_neg hlen']
  simp only [if_neg hy', if_neg h1, if_neg h2, if_neg h3]

/-- The Payment branch when it accepts. -/
theorem hook_payment_eq (s : HookState) (tx : Tx) (hlen : 0 ≤ tx.txtype_len)
    (hy : 1 ≤ tx.staking_year ∧ tx.staking_year ≤ 5)
    (hty : tx.txtype = TxType.Payment) (hc : tx.currency = "CULT")
    (h0 : s.total_staked ≠ 0) :
    hook s tx = accept "Rewards distributed successfully" 0
      { s with yearly_emission := some (get_daily_emission tx.staking_year) }
      [("Daily Reward Distribution",
        get_daily_emission tx.staking_year / toU64 s.total_staked)] := by
  have hlen' : ¬ tx.txtype_len < 0 := not_lt.mpr hlen
  have hy' : ¬ (tx.staking_year < 1 ∨ tx.staking_year > 5) := by omega
  have h1 : ¬ tx.txtype = TxType.NFTokenCreateOffer := by rw [hty]; decide
  have h2 : ¬ tx.txtype = TxType.NFTokenAcceptOffer := by rw [hty]; decide
  have hc' : ¬ tx.currency ≠ "CULT" := not_not.mpr hc
  unfold hook
  rw [if_neg hlen']
  simp only [if_neg hy', if_neg h1, if_neg h2, if_pos hty, if_neg hc', if_neg h0]

/-- What must hold of an invocation that ends in `accept`. -/
theorem hook_accepted_pre (s : HookState) (tx : Tx) (h : (hook s tx).accepted = true) :
    0 ≤ tx.txtype_len ∧ (1 ≤ tx.staking_year ∧ tx.staking_year ≤ 5) ∧
    (tx.txtype = TxType.NFTokenCreateOffer → tx.flags0 &&& tfSellNFToken ≠ 0) ∧
    (tx.txtype = TxType.Payment → tx.currency = "CULT" ∧ s.total_staked ≠ 0) ∧
    tx.txtype ≠ TxType.Other := by
  by_cases hlen : tx.txtype_len < 0
  · rw [hook_reject_len s tx hlen] at h
    exact absurd h (by simp [rollback])
  have hlen' : 0 ≤ tx.txtype_len := not_lt.mp hlen
  by_cases hy : 1 ≤ tx.staking_year ∧ tx.staking_year ≤ 5
  swap
  · rw [hook_reject_year s tx hlen' hy] at h
    exact absurd h (by simp [rollback])
  refine ⟨hlen', hy, ?_, ?_, ?_⟩
  · intro hty hflag
    rw [hook_reject_flag s tx hlen' hy hty hflag] at h
    exact absurd h (by simp [rollback])
  · intro hty
    by_cases hc : tx.currency = "CULT"
    · by_cases h0 : s.total_staked = 0
      · rw [hook_reject_empty s tx hlen' hy hty hc h0] at h
        exact absurd h (by simp [rollback])
      · exact ⟨hc, h0⟩
    · rw [hook_reject_currency s tx hlen' hy hty hc] at h
      exact absurd h (by simp [rollback])
  · intro hty
    rw [hook_reject_other s tx hlen' hy hty] at h
    exact absurd h (by simp [rollback])

/-- The Stake branch, for any prior state: the stored and emitted rate is at
most the largest daily emission with the bonus, 493149600000. -/
theorem hook_stake_eq (s : HookState) (tx : Tx)
    (hlen : 0 ≤ tx.txtype_len) (hy : 1 ≤ tx.staking_year ∧ tx.staking_year ≤ 5)
    (hty : tx.txtype = TxType.NFTokenCreateOffer)
    (hflag : tx.flags0 &&& tfSellNFToken ≠ 0) :
    ∃ R : Nat, R ≤ 493149600000 ∧
      hook s tx = accept "NFT staked successfully" 0
        { total_staked := wrapS64 (s.total_staked + 1),
          nft_info := some (tx.ledger_last_time % 2 ^ 32),
          rewards := some R,
          yearly_emission := s.yearly_emission }
        [("NFT Staked", R)] := by
  have hlen' : ¬ tx.txtype_len < 0 := not_lt.mpr hlen
  have hy' : ¬ (tx.staking_year < 1 ∨ tx.staking_year > 5) := by omega
  have hde := get_daily_emission_le tx.staking_year
  have hbase : (if wrapS64 (s.total_staked + 1) > 0 then
        get_daily_emission tx.staking_year / toU64 (wrapS64 (s.total_staked + 1))
      else 0) ≤ 410958000000 := by
    split_ifs
    · exact le_trans (Nat.div_le_self _ _) hde
    · exact Nat.zero_le _
  refine ⟨(if tx.inner_circle % 2 ^ 8 ≠ 0 then
      ((if wrapS64 (s.total_staked + 1) > 0 then
        get_daily_emission tx.staking_year / toU64 (wrapS64 (s.total_staked + 1))
      else 0) * INNER_CIRCLE_BONUS) % 2 ^ 64 / 100
    else (if wrapS64 (s.total_staked + 1) > 0 then
        get_daily_emission tx.staking_year / toU64 (wrapS64 (s.total_staked + 1))
      else 0)), ?_, ?_⟩
  · generalize (if wrapS64 (s.total_staked + 1) > 0 then
          get_daily_emission tx.staking_year / toU64 (wrapS64 (s.total_staked + 1))
        else 0) = b at hbase ⊢
    simp only [INNER_CIRCLE_BONUS]
    split_ifs
    · have : b * 120 < 2 ^ 64 := by norm_num; omega
      rw [Nat.mod_eq_of_lt this]
      omega
    · omega
  · unfold hook
    rw [if_neg hlen']
    simp only [if_neg hy', if_pos hty, if_neg hflag]

/-- The Unstake branch, for any prior state. -/
theorem hook_unstake_eq (s : HookState) (tx : Tx)
    (hlen : 0 ≤ tx.txtype_len) (hy : 1 ≤ tx.staking_year ∧ tx.staking_year ≤ 5)
    (hty : tx.txtype = TxType.NFTokenAcceptOffer) :
    hook s tx = accept "NFT unstaked successfully" 0
      { total_staked := wrapS64 (s.total_staked - 1),
        nft_info := none, rewards := none,
        yearly_emission := s.yearly_emission }
      ((if (tx.ledger_last_time % 2 ^ 32 + 2 ^ 32
              - state_get s.nft_info tx.stake_time_init % 2 ^ 32) % 2 ^ 32 < 604800 then
          [("Early Unstake Penalty",
            state_get s.rewards tx.rewards_init % 2 ^ 64 * 75 % 2 ^ 64 / 100)]
        else []) ++
       [("NFT Unstaked",
          if (tx.ledger_last_time % 2 ^ 32 + 2 ^ 32
              - state_get s.nft_info tx.stake_time_init % 2 ^ 32) % 2 ^ 32 < 604800 then
            state_get s.rewards tx.rewards_init % 2 ^ 64 * 75 % 2 ^ 64 / 100
          else state_get s.rewards tx.rewards_init % 2 ^ 64)]) := by
  have hlen' : ¬ tx.txtype_len < 0 := not_lt.mpr hlen
  have hy' : ¬ (tx.staking_year < 1 ∨ tx.staking_year > 5) := by omega
  have hne : ¬ tx.txtype = TxType.NFTokenCreateOffer := by rw [hty]; decide
  unfold hook
  rw [if_neg hlen']
  simp only [if_neg hy', if_neg hne, if_pos hty, MIN_STAKE_DURATION, EARLY_UNSTAKE_PENALTY]
  by_cases hd : (tx.ledger_last_time % 2 ^ 32 + 2 ^ 32
              - state_get s.nft_info tx.stake_time_init % 2 ^ 32) % 2 ^ 32 < 604800
  · simp only [hd, decide_True, if_true]
  · simp only [hd, decide_False, if_false, Bool.false_eq_true]

/-- The Unstake branch on a state holding a record `(t1, R)` written by a
Stake, processed at a time `now ≥ t1`: neither the subtraction nor the penalty
product wraps. -/
theorem hook_unstake_of_record (s : HookState) (tx : Tx) (t1 R : Nat)
    (hlen : 0 ≤ tx.txtype_len) (hy : 1 ≤ tx.staking_year ∧ tx.staking_year ≤ 5)
    (hty : tx.txtype = TxType.NFTokenAcceptOffer)
    (hinfo : s.nft_info = some t1) (hrew : s.rewards = some R)
    (hR : R ≤ 493149600000) (ht : t1 ≤ tx.ledger_last_time % 2 ^ 32) :
    hook s tx = accept "NFT unstaked successfully" 0
      { total_staked := wrapS64 (s.total_staked - 1),
        nft_info := none, rewards := none,
        yearly_emission := s.yearly_emission }
      ((if tx.ledger_last_time % 2 ^ 32 - t1 < 604800 then
          [("Early Unstake Penalty", R * 75 / 100)]
        else []) ++
       [("NFT Unstaked",
          if tx.ledger_last_time % 2 ^ 32 - t1 < 604800 then R * 75 / 100 else R)]) := by
  rw [hook_unstake_eq s tx hlen hy hty, hinfo, hrew]
  have hn : tx.ledger_last_time % 2 ^ 32 < 2 ^ 32 := Nat.mod_lt _ (by norm_num)
  have h1 : state_get (some t1) tx.stake_time_init % 2 ^ 32 = t1 := by
    simp only [state_get]
    exact Nat.mod_eq_of_lt (lt_of_le_of_lt ht hn)
  have h2 : (tx.ledger_last_time % 2 ^ 32 + 2 ^ 32 - t1) % 2 ^ 32
      = tx.ledger_last_time % 2 ^ 32 - t1 := by
    generalize tx.ledger_last_time % 2 ^ 32 = n at hn ht ⊢
    norm_num at hn ⊢
    omega
  have h3 : state_get (some R) tx.rewards_init % 2 ^ 64 = R := by
    simp only [state_get]
    exact Nat.mod_eq_of_lt (by norm_num; omega)
  have h4 : R * 75 % 2 ^ 64 = R * 75 := Nat.mod_eq_of_lt (by norm_num; omega)
  rw [h1, h2, h3, h4]

/-- The Stake branch on a state whose counter is `t` with `t < 2^63 - 1`:
neither the increment nor the bonus product wraps. -/
theorem hook_stake_exact (s : HookState) (tx : Tx) (t : Nat)
    (hlen : 0 ≤ tx.txtype_len)
    (hty : tx.txtype = TxType.NFTokenCreateOffer)
    (hflag : tx.flags0 &&& tfSellNFToken ≠ 0)
    (hy : 1 ≤ tx.staking_year ∧ tx.staking_year ≤ 5)
    (ht : s.total_staked = (t : Int)) (hlt : t < 2 ^ 63 - 1) :
    hook s tx =
      accept "NFT staked successfully" 0
        { total_staked := ((t + 1 : Nat) : Int),
          nft_info := some (tx.ledger_last_time % 2 ^ 32),
          rewards := some (if tx.inner_circle % 2 ^ 8 ≠ 0 then
              get_daily_emission tx.staking_year / (t + 1) * 120 / 100
            else get_daily_emission tx.staking_year / (t + 1)),
          yearly_emission := s.yearly_emission }
        [("NFT Staked", if tx.inner_circle % 2 ^ 8 ≠ 0 then
              get_daily_emission tx.staking_year / (t + 1) * 120 / 100
            else get_daily_emission tx.staking_year / (t + 1))] := by
  have hlen' : ¬ tx.txtype_len < 0 := not_lt.mpr hlen
  have hy' : ¬ (tx.staking_year < 1 ∨ tx.staking_year > 5) := by omega
  have hw : wrapS64 (s.total_staked + 1) = ((t + 1 : Nat) : Int) := by
    rw [ht, wrapS64_of_range] <;> norm_num at hlt ⊢ <;> omega
  have hu : toU64 ((t + 1 : Nat) : Int) = t + 1 :=
    toU64_natCast (t + 1) (by norm_num at hlt ⊢; omega)
  have hpos : ((t + 1 : Nat) : Int) > 0 := by positivity
  have hb := bonus_no_wrap tx.staking_year (t + 1)
  unfold hook
  rw [if_neg hlen']
  simp only [if_neg hy', if_pos hty, if_neg hflag, hw, hu, if_pos hpos, hb]

/-! ## The counter along a run -/

/-- The committed state of an accepted invocation. -/
theorem step_of_accepted (s : HookState) (tx : Tx) (h : (hook s tx).accepted = true) :
    step s tx = (hook s tx).state := by
  unfold step
  rw [if_pos h]

/-- The committed state of a rejected invocation. -/
theorem step_of_rejected (s : HookState) (tx : Tx) (h : (hook s tx).accepted = false) :
    step s tx = s := by
  unfold step
  rw [h]
  rfl

/-- One processed transaction moves the counter up by one when it is an
accepted Stake, down by one when it is an accepted Unstake, and not at all
otherwise, as long as the counter stays inside the `int64_t` range. -/
theorem step_total_staked (s : HookState) (tx : Tx)
    (h1 : -(2 : Int) ^ 63 < s.total_staked) (h2 : s.total_staked < 2 ^ 63 - 1) :
    (step s tx).total_staked = s.total_staked
      + ((if (hook s tx).accepted = true ∧ tx.txtype = TxType.NFTokenCreateOffer
            then 1 else 0 : Nat) : Int)
      - ((if (hook s tx).accepted = true ∧ tx.txtype = TxType.NFTokenAcceptOffer
            then 1 else 0 : Nat) : Int) := by
  by_cases hacc : (hook s tx).accepted = true
  swap
  · have hf : (hook s tx).accepted = false := by simpa using hacc
    rw [step_of_rejected s tx hf]
    simp [hf]
  obtain ⟨hlen, hy, hfl, hpay, hoth⟩ := hook_accepted_pre s tx hacc
  rw [step_of_accepted s tx hacc]
  cases hty : tx.txtype with
  | NFTokenCreateOffer =>
    obtain ⟨R, -, hk⟩ := hook_stake_eq s tx hlen hy hty (hfl hty)
    have hw : wrapS64 (s.total_staked + 1) = s.total_staked + 1 :=
      wrapS64_of_range _ (by omega) (by omega)
    simp [hacc, hk, accept, hw]
  | NFTokenAcceptOffer =>
    have hk := hook_unstake_eq s tx hlen hy hty
    have hw : wrapS64 (s.total_staked - 1) = s.total_staked - 1 :=
      wrapS64_of_range _ (by omega) (by omega)
    simp [hacc, hk, accept, hw]
  | Payment =>
    obtain ⟨hc, h0⟩ := hpay hty
    have hk := hook_payment_eq s tx hlen hy hty hc h0
    simp [hacc, hk, accept]
  | Other => exact absurd hty hoth

/-- The counter after a run is the prior counter plus the accepted Stakes minus
the accepted Unstakes, when the run is too short to leave the `int64_t` range. -/
theorem run_total_staked (txs : List Tx) :
    ∀ s : HookState,
      -(2 : Int) ^ 63 + txs.length < s.total_staked →
      s.total_staked + txs.length < 2 ^ 63 →
      (run s txs).total_staked = s.total_staked
        + (acceptedOfType TxType.NFTokenCreateOffer s txs : Int)
        - (acceptedOfType TxType.NFTokenAcceptOffer s txs : Int) := by
  induction txs with
  | nil =>
    intro s _ _
    simp [run, acceptedOfType]
  | cons tx txs ih =>
    intro s h1 h2
    simp only [List.length_cons, Nat.cast_add, Nat.cast_one] at h1 h2
    have hs := step_total_staked s tx (by omega) (by omega)
    have hrun : run s (tx :: txs) = run (step s tx) txs := rfl
    have hA : ∀ k, acceptedOfType k s (tx :: txs)
        = (if (hook s tx).accepted = true ∧ tx.txtype = k then 1 else 0)
          + acceptedOfType k (step s tx) txs := fun _ => rfl
    have ha : ((if (hook s tx).accepted = true ∧ tx.txtype = TxType.NFTokenCreateOffer
            then 1 else 0 : Nat) : Int) ≤ 1 := by split_ifs <;> simp
    have hb : ((if (hook s tx).accepted = true ∧ tx.txtype = TxType.NFTokenAcceptOffer
            then 1 else 0 : Nat) : Int) ≤ 1 := by split_ifs <;> simp
    have ha0 : (0 : Int) ≤ ((if (hook s tx).accepted = true ∧
        tx.txtype = TxType.NFTokenCreateOffer then 1 else 0 : Nat) : Int) := Int.natCast_nonneg _
    have hb0 : (0 : Int) ≤ ((if (hook s tx).accepted = true ∧
        tx.txtype = TxType.NFTokenAcceptOffer then 1 else 0 : Nat) : Int) := Int.natCast_nonneg _
    rw [hrun, ih (step s tx) (by omega) (by omega), hs, hA, hA]
    push_cast
    ring

/-- The counter equals the number of records along an alternating run. -/
theorem run_alternating (txs : List Tx) :
    ∀ s : HookState, s.total_staked = (recordCount s : Int) →
      alternating s txs = true →
      (run s txs).total_staked = (recordCount (run s txs) : Int) := by
  induction txs with
  | nil =>
    intro s h _
    exact h
  | cons tx txs ih =>
    intro s hinv halt
    have hrun : run s (tx :: txs) = run (step s tx) txs := rfl
    rw [hrun]
    have halt' : (if (hook s tx).accepted = true ∧ tx.txtype = TxType.NFTokenCreateOffer then
          s.nft_info.isNone
        else if (hook s tx).accepted = true ∧ tx.txtype = TxType.NFTokenAcceptOffer then
          s.nft_info.isSome
        else true) = true ∧ alternating (step s tx) txs = true := by
      have : alternating s (tx :: txs) = ((if (hook s tx).accepted = true ∧
            tx.txtype = TxType.NFTokenCreateOffer then s.nft_info.isNone
          else if (hook s tx).accepted = true ∧ tx.txtype = TxType.NFTokenAcceptOffer then
            s.nft_info.isSome
          else true) && alternating (step s tx) txs) := rfl
      rw [this, Bool.and_eq_true] at halt
      exact halt
    refine ih (step s tx) ?_ halt'.2
    have hcond := halt'.1
    by_cases hacc : (hook s tx).accepted = true
    swap
    · have hf : (hook s tx).accepted = false := by simpa using hacc
      rw [step_of_rejected s tx hf]
      exact hinv
    obtain ⟨hlen, hy, hfl, hpay, hoth⟩ := hook_accepted_pre s tx hacc
    rw [step_of_accepted s tx hacc]
    cases hty : tx.txtype with
    | NFTokenCreateOffer =>
      obtain ⟨R, -, hk⟩ := hook_stake_eq s tx hlen hy hty (hfl hty)
      rw [if_pos ⟨hacc, hty⟩] at hcond
      have h0 : s.total_staked = 0 := by
        rw [hinv]
        simp only [recordCount]
        cases hi : s.nft_info with
        | none => simp
        | some v => rw [hi] at hcond; simp at hcond
      have hw : wrapS64 (0 + 1) = 1 := by decide
      rw [hk, h0]
      simp only [accept, recordCount, hw, Option.isSome_some, if_true]
      rfl
    | NFTokenAcceptOffer =>
      have hk := hook_unstake_eq s tx hlen hy hty
      have hne : ¬ ((hook s tx).accepted = true ∧ tx.txtype = TxType.NFTokenCreateOffer) := by
        rw [hty]; simp
      rw [if_neg hne, if_pos ⟨hacc, hty⟩] at hcond
      have h1 : s.total_staked = 1 := by
        rw [hinv]
        simp only [recordCount, hcond]
        simp
      have hw : wrapS64 (1 - 1) = 0 := by decide
      rw [hk, h1]
      simp only [accept, recordCount, hw, Option.isSome_none]
      rfl
    | Payment =>
      obtain ⟨hc, h0⟩ := hpay hty
      rw [hook_payment_eq s tx hlen hy hty hc h0]
      exact hinv
    | Other => exact absurd hty hoth

/-! ## Outcomes and the stake rate -/

/-- Every invocation ends either in `accept` with code 0 or in `rollback` with
a nonzero code, the prior state and no event. -/
theorem hook_cases (s : HookState) (tx : Tx) :
    (∃ m st ev, hook s tx = accept m 0 st ev) ∨
    (∃ m c, c ≠ 0 ∧ hook s tx = rollback m c s []) := by
  have hm1 : (-1 : Int) ≠ 0 := by decide
  by_cases hlen : tx.txtype_len < 0
  · exact Or.inr ⟨_, _, ne_of_lt hlen, hook_reject_len s tx hlen⟩
  have hlen' : 0 ≤ tx.txtype_len := not_lt.mp hlen
  by_cases hy : 1 ≤ tx.staking_year ∧ tx.staking_year ≤ 5
  swap
  · exact Or.inr ⟨_, _, hm1, hook_reject_year s tx hlen' hy⟩
  cases hty : tx.txtype with
  | NFTokenCreateOffer =>
    by_cases hflag : tx.flags0 &&& tfSellNFToken = 0
    · exact Or.inr ⟨_, _, hm1, hook_reject_flag s tx hlen' hy hty hflag⟩
    · obtain ⟨R, -, hk⟩ := hook_stake_eq s tx hlen' hy hty hflag
      exact Or.inl ⟨_, _, _, hk⟩
  | NFTokenAcceptOffer =>
    exact Or.inl ⟨_, _, _, hook_unstake_eq s tx hlen' hy hty⟩
  | Payment =>
    by_cases hc : tx.currency = "CULT"
    · by_cases h0 : s.total_staked = 0
      · exact Or.inr ⟨_, _, hm1, hook_reject_empty s tx hlen' hy hty hc h0⟩
      · exact Or.inl ⟨_, _, _, hook_payment_eq s tx hlen' hy hty hc h0⟩
    · exact Or.inr ⟨_, _, hm1, hook_reject_currency s tx hlen' hy hty hc⟩
  | Other =>
    exact Or.inr ⟨_, _, hm1, hook_reject_other s tx hlen' hy hty⟩

/-- The Stake branch stores and emits the value of `stake_reward_per_nft`. -/
theorem hook_stake_rate (s : HookState) (tx : Tx)
    (hlen : 0 ≤ tx.txtype_len) (hy : 1 ≤ tx.staking_year ∧ tx.staking_year ≤ 5)
    (hty : tx.txtype = TxType.NFTokenCreateOffer)
    (hflag : tx.flags0 &&& tfSellNFToken ≠ 0) :
    hook s tx = accept "NFT staked successfully" 0
      { total_staked := wrapS64 (s.total_staked + 1),
        nft_info := some (tx.ledger_last_time % 2 ^ 32),
        rewards := some (stake_reward_per_nft (get_daily_emission tx.staking_year)
          (wrapS64 (s.total_staked + 1)) (tx.inner_circle % 2 ^ 8)),
        yearly_emission := s.yearly_emission }
      [("NFT Staked", stake_reward_per_nft (get_daily_emission tx.staking_year)
          (wrapS64 (s.total_staked + 1)) (tx.inner_circle % 2 ^ 8))] := by
  have hlen' : ¬ tx.txtype_len < 0 := not_lt.mpr hlen
  have hy' : ¬ (tx.staking_year < 1 ∨ tx.staking_year > 5) := by omega
  unfold hook stake_reward_per_nft
  rw [if_neg hlen']
  simp only [if_neg hy', if_pos hty, if_neg hflag]

/-- The stake rate as an exact integer formula, when the counter after the
increment is a positive `int64_t` value and the bonus product fits 64 bits. -/
theorem stake_reward_per_nft_exact (de n ic : Nat) (hn : 1 ≤ n) (hlt : n < 2 ^ 63)
    (hde : de * 120 < 2 ^ 64) :
    stake_reward_per_nft de (n : Int) ic
      = if ic ≠ 0 then de / n * 120 / 100 else de / n := by
  have hu : toU64 (n : Int) = n := toU64_natCast n (lt_trans hlt (by norm_num))
  have hpos : (n : Int) > 0 := by exact_mod_cast hn
  have hb : de / n * 120 < 2 ^ 64 :=
    lt_of_le_of_lt (Nat.mul_le_mul_right _ (Nat.div_le_self _ _)) hde
  unfold stake_reward_per_nft
  simp only [if_pos hpos, hu, INNER_CIRCLE_BONUS, Nat.mod_eq_of_lt hb]

/-- The stake rate never exceeds the largest daily emission with the bonus. -/
theorem stake_reward_per_nft_le (year : Nat) (total : Int) (ic : Nat) :
    stake_reward_per_nft (get_daily_emission year) total ic ≤ 493149600000 := by
  have hde := get_daily_emission_le year
  have hbase : (if total > 0 then get_daily_emission year / toU64 total else 0)
      ≤ 410958000000 := by
    split_ifs
    · exact le_trans (Nat.div_le_self _ _) hde
    · exact Nat.zero_le _
  unfold stake_reward_per_nft
  generalize (if total > 0 then get_daily_emission year / toU64 total else 0) = b at hbase ⊢
  simp only [INNER_CIRCLE_BONUS]
  split_ifs
  · have : b * 120 < 2 ^ 64 := by norm_num; omega
    rw [Nat.mod_eq_of_lt this]
    omega
  · omega

/-! ## Theorems -/

/-- C1: `get_daily_emission` is total; it returns the five table values for
years 1 to 5 and 0 for every other year, so the result is nonzero exactly when
`1 ≤ year ≤ 5`. -/
theorem get_daily_emission_table :
    get_daily_emission 1 = 205479000000 ∧
    get_daily_emission 2 = 342466000000 ∧
    get_daily_emission 3 = 410958000000 ∧
    get_daily_emission 4 = 342466000000 ∧
    get_daily_emission 5 = 202740000000 ∧
    (∀ year : Nat, ¬ (1 ≤ year ∧ year ≤ 5) → get_daily_emission year = 0) ∧
    (∀ year : Nat, get_daily_emission year ≠ 0 ↔ (1 ≤ year ∧ year ≤ 5)) := by
  refine ⟨rfl, rfl, rfl, rfl, rfl, ?_, ?_⟩
  · intro year h
    match year with
    | 0 => rfl
    | 1 | 2 | 3 | 4 | 5 => omega
    | n + 6 => rfl
  · intro year
    match year with
    | 0 => decide
    | 1 | 2 | 3 | 4 | 5 => decide
    | n + 6 =>
      constructor
      · intro h; exact absurd rfl h
      · intro h; omega

/-- Instances of C1: year 7 lies outside the table, year 3 inside. -/
theorem get_daily_emission_table_witness :
    get_daily_emission 7 = 0 ∧ get_daily_emission 3 ≠ 0 :=
  ⟨get_daily_emission_table.2.2.2.2.2.1 7 (by decide),
   (get_daily_emission_table.2.2.2.2.2.2 3).mpr (by decide)⟩

/-- C2: a Stake (offer creation with the sell flag set, year in [1,5]) on a
state whose counter is `t` with `0 ≤ t < 2^63 - 1` is accepted with code 0,
sets the counter to `t + 1`, stores `staked_at = now`, and stores and emits in
the "NFT Staked" event the rate `daily_emission / (t+1)`, times 120 over 100
when `is_inner_circle` is nonzero. -/
theorem hook_stake_accepts (s : HookState) (tx : Tx) (t : Nat)
    (hlen : 0 ≤ tx.txtype_len)
    (hty : tx.txtype = TxType.NFTokenCreateOffer)
    (hflag : tx.flags0 &&& tfSellNFToken ≠ 0)
    (hy : 1 ≤ tx.staking_year ∧ tx.staking_year ≤ 5)
    (ht : s.total_staked = (t : Int)) (hlt : t < 2 ^ 63 - 1) :
    (hook s tx).accepted = true ∧ (hook s tx).code = 0 ∧
    (hook s tx).state.total_staked = (t : Int) + 1 ∧
    (hook s tx).state.nft_info = some (tx.ledger_last_time % 2 ^ 32) ∧
    (tx.inner_circle % 2 ^ 8 = 0 →
      (hook s tx).state.rewards = some (get_daily_emission tx.staking_year / (t + 1)) ∧
      (hook s tx).emitted =
        [("NFT Staked", get_daily_emission tx.staking_year / (t + 1))]) ∧
    (tx.inner_circle % 2 ^ 8 ≠ 0 →
      (hook s tx).state.rewards =
        some (get_daily_emission tx.staking_year / (t + 1) * 120 / 100) ∧
      (hook s tx).emitted =
        [("NFT Staked", get_daily_emission tx.staking_year / (t + 1) * 120 / 100)]) := by
  have hk := hook_stake_exact s tx t hlen hty hflag hy ht hlt
  rw [hk]
  refine ⟨rfl, rfl, by simp [accept], rfl, ?_, ?_⟩
  · intro h0
    simp only [accept, if_neg (not_not.mpr h0), and_self]
  · intro h1
    simp only [accept, if_pos h1, and_self]

/-- The scenario of C2: year 2 on an empty ledger, a first Stake without the
bonus gives total 1 and rate 342466000000, a second Stake with the bonus gives
total 2 and rate 205479600000. -/
theorem hook_stake_accepts_witness :
    (hook genesis (sampleStake 2 0 1000)).accepted = true ∧
    (hook genesis (sampleStake 2 0 1000)).state.total_staked = 1 ∧
    (hook genesis (sampleStake 2 0 1000)).state.rewards = some 342466000000 ∧
    (hook genesis (sampleStake 2 0 1000)).emitted = [("NFT Staked", 342466000000)] ∧
    (hook (step genesis (sampleStake 2 0 1000)) (sampleStake 2 1 2000)).accepted = true ∧
    (hook (step genesis (sampleStake 2 0 1000)) (sampleStake 2 1 2000)).state.total_staked = 2 ∧
    (hook (step genesis (sampleStake 2 0 1000)) (sampleStake 2 1 2000)).state.rewards
      = some 205479600000 ∧
    (hook (step genesis (sampleStake 2 0 1000)) (sampleStake 2 1 2000)).emitted
      = [("NFT Staked", 205479600000)] := by
  have h1 := hook_stake_accepts genesis (sampleStake 2 0 1000) 0
    (by decide) rfl (by decide) (by decide) rfl (by norm_num)
  have h2 := hook_stake_accepts (step genesis (sampleStake 2 0 1000)) (sampleStake 2 1 2000) 1
    (by decide) rfl (by decide) (by decide) (by decide) (by norm_num)
  exact ⟨h1.1, h1.2.2.1, (h1.2.2.2.2.1 (by decide)).1, (h1.2.2.2.2.1 (by decide)).2,
    h2.1, h2.2.2.1, (h2.2.2.2.2.2 (by decide)).1, (h2.2.2.2.2.2 (by decide)).2⟩

/-- C3: Stake followed by Unstake of the same position with nothing in
between.  The Stake is accepted at time `t1` and stores a rate `r`; the Unstake
is processed at time `t2 ≥ t1`.  Every "NFT Unstaked" event of the Unstake
carries `r * 75 / 100` when `t2 - t1 < 604800` and `r` otherwise, and an
Unstake with a valid year is accepted and emits that event. -/
theorem stake_then_unstake_payout (s : HookState) (tx1 tx2 : Tx)
    (hty1 : tx1.txtype = TxType.NFTokenCreateOffer)
    (hacc : (hook s tx1).accepted = true)
    (hty2 : tx2.txtype = TxType.NFTokenAcceptOffer)
    (htime : tx1.ledger_last_time % 2 ^ 32 ≤ tx2.ledger_last_time % 2 ^ 32) :
    ∃ r p : Nat,
      (step s tx1).nft_info = some (tx1.ledger_last_time % 2 ^ 32) ∧
      (step s tx1).rewards = some r ∧
      (tx2.ledger_last_time % 2 ^ 32 - tx1.ledger_last_time % 2 ^ 32 < 604800 →
        p = r * 75 / 100) ∧
      (604800 ≤ tx2.ledger_last_time % 2 ^ 32 - tx1.ledger_last_time % 2 ^ 32 →
        p = r) ∧
      (∀ e ∈ (hook (step s tx1) tx2).emitted, e.1 = "NFT Unstaked" → e.2 = p) ∧
      (0 ≤ tx2.txtype_len → 1 ≤ tx2.staking_year ∧ tx2.staking_year ≤ 5 →
        (hook (step s tx1) tx2).accepted = true ∧ (hook (step s tx1) tx2).code = 0 ∧
        ("NFT Unstaked", p) ∈ (hook (step s tx1) tx2).emitted) := by
  obtain ⟨hlen1, hy1, hfl1, -, -⟩ := hook_accepted_pre s tx1 hacc
  obtain ⟨R, hR, hk⟩ := hook_stake_eq s tx1 hlen1 hy1 hty1 (hfl1 hty1)
  have hstep : step s tx1 = (hook s tx1).state := by
    unfold step
    rw [if_pos hacc]
  have hinfo : (step s tx1).nft_info = some (tx1.ledger_last_time % 2 ^ 32) := by
    rw [hstep, hk]; rfl
  have hrew : (step s tx1).rewards = some R := by
    rw [hstep, hk]; rfl
  refine ⟨R, if tx2.ledger_last_time % 2 ^ 32 - tx1.ledger_last_time % 2 ^ 32 < 604800
      then R * 75 / 100 else R, hinfo, hrew, ?_, ?_, ?_, ?_⟩
  · intro h; rw [if_pos h]
  · intro h; rw [if_neg (not_lt.mpr h)]
  · intro e he hname
    by_cases hlen2 : tx2.txtype_len < 0
    · rw [hook_reject_len _ _ hlen2] at he
      simp [rollback] at he
    by_cases hy2 : 1 ≤ tx2.staking_year ∧ tx2.staking_year ≤ 5
    swap
    · rw [hook_reject_year _ _ (not_lt.mp hlen2) hy2] at he
      simp [rollback] at he
    rw [hook_unstake_of_record (step s tx1) tx2 _ R (not_lt.mp hlen2) hy2 hty2 hinfo hrew hR htime]
      at he
    simp only [accept, List.mem_append, List.mem_singleton] at he
    rcases he with he | he
    · split_ifs at he with hd
      · simp only [List.mem_singleton] at he
        rw [he] at hname
        have hne : ("Early Unstake Penalty" : String) ≠ "NFT Unstaked" := by decide
        exact absurd hname hne
      · simp at he
    · rw [he]
  · intro hlen2 hy2
    rw [hook_unstake_of_record (step s tx1) tx2 _ R hlen2 hy2 hty2 hinfo hrew hR htime]
    refine ⟨rfl, rfl, ?_⟩
    simp [accept]

/-- The round trip of C3 on an empty ledger in year 2: the Stake at time 1000
stores 342466000000; an Unstake 1000 seconds later pays 256849500000, an
Unstake exactly 604800 seconds later pays 342466000000. -/
theorem stake_then_unstake_payout_witness :
    (hook genesis (sampleStake 2 0 1000)).accepted = true ∧
    ("NFT Unstaked", 256849500000) ∈
      (hook (step genesis (sampleStake 2 0 1000)) (sampleUnstake 2 2000)).emitted ∧
    ("NFT Unstaked", 342466000000) ∈
      (hook (step genesis (sampleStake 2 0 1000)) (sampleUnstake 2 605800)).emitted := by
  have hs : (step genesis (sampleStake 2 0 1000)).rewards = some 342466000000 := by decide
  obtain ⟨r, p, -, hr, hearly, -, -, hacc⟩ :=
    stake_then_unstake_payout genesis (sampleStake 2 0 1000) (sampleUnstake 2 2000)
      rfl (by decide) rfl (by decide)
  obtain ⟨r2, p2, -, hr2, -, hlate, -, hacc2⟩ :=
    stake_then_unstake_payout genesis (sampleStake 2 0 1000) (sampleUnstake 2 605800)
      rfl (by decide) rfl (by decide)
  rw [hs] at hr hr2
  have e1 : r = 342466000000 := (Option.some.inj hr).symm
  have e2 : r2 = 342466000000 := (Option.some.inj hr2).symm
  have hp : p = 256849500000 := by rw [hearly (by decide), e1]
  have hp2 : p2 = 342466000000 := by rw [hlate (by decide), e2]
  refine ⟨by decide, ?_, ?_⟩
  · rw [← hp]; exact (hacc (by decide) (by decide)).2.2
  · rw [← hp2]; exact (hacc2 (by decide) (by decide)).2.2

/-- C4: a Payment in the reward currency with year in [1,5] on a state whose
counter is `n > 0` is accepted with code 0, emits "Daily Reward Distribution"
carrying `daily_emission / n`, writes `daily_emission` as the audit record and
leaves the counter and the stake record unchanged. -/
theorem hook_payment_accepts (s : HookState) (tx : Tx) (n : Nat)
    (hlen : 0 ≤ tx.txtype_len)
    (hty : tx.txtype = TxType.Payment)
    (hcur : tx.currency = "CULT")
    (hy : 1 ≤ tx.staking_year ∧ tx.staking_year ≤ 5)
    (hn : s.total_staked = (n : Int)) (hpos : 0 < n) (hlt : n < 2 ^ 63) :
    (hook s tx).accepted = true ∧ (hook s tx).code = 0 ∧
    (hook s tx).emitted =
      [("Daily Reward Distribution", get_daily_emission tx.staking_year / n)] ∧
    (hook s tx).state.yearly_emission = some (get_daily_emission tx.staking_year) ∧
    (hook s tx).state.total_staked = s.total_staked ∧
    (hook s tx).state.nft_info = s.nft_info ∧
    (hook s tx).state.rewards = s.rewards := by
  have h0 : s.total_staked ≠ 0 := by rw [hn]; exact_mod_cast hpos.ne.symm
  have hu : toU64 s.total_staked = n := by
    rw [hn]
    exact toU64_natCast n (lt_trans hlt (by norm_num))
  rw [hook_payment_eq s tx hlen hy hty hcur h0, hu]
  exact ⟨rfl, rfl, rfl, rfl, rfl, rfl, rfl⟩

/-- An instance of C4: three positions staked, year 3. -/
theorem hook_payment_accepts_witness :
    (hook sampleLedger (samplePayment 3 "CULT")).emitted
      = [("Daily Reward Distribution", 136986000000)] ∧
    (hook sampleLedger (samplePayment 3 "CULT")).state
      = { total_staked := 3, nft_info := some 1000, rewards := some 5,
          yearly_emission := some 410958000000 } := by
  have h := hook_payment_accepts sampleLedger (samplePayment 3 "CULT") 3
    (by decide) rfl rfl (by decide) rfl (by decide) (by norm_num)
  exact ⟨h.2.2.1, by decide⟩

/-- C5: a Payment on a state whose counter is 0 is rejected with a nonzero
code, whatever the year and the currency, and the audit record is the same
after the call as before it. -/
theorem hook_payment_empty_rejects (s : HookState) (tx : Tx)
    (hty : tx.txtype = TxType.Payment) (h0 : s.total_staked = 0) :
    (hook s tx).accepted = false ∧ (hook s tx).code ≠ 0 ∧
    (hook s tx).state.yearly_emission = s.yearly_emission ∧
    (step s tx).yearly_emission = s.yearly_emission := by
  have key : (hook s tx).accepted = false ∧ (hook s tx).code ≠ 0 ∧
      (hook s tx).state.yearly_emission = s.yearly_emission := by
    by_cases hlen : tx.txtype_len < 0
    · rw [hook_reject_len s tx hlen]
      exact ⟨rfl, ne_of_lt hlen, rfl⟩
    have hlen' : 0 ≤ tx.txtype_len := not_lt.mp hlen
    by_cases hy : 1 ≤ tx.staking_year ∧ tx.staking_year ≤ 5
    swap
    · rw [hook_reject_year s tx hlen' hy]
      exact ⟨rfl, (by decide : (-1 : Int) ≠ 0), rfl⟩
    by_cases hc : tx.currency = "CULT"
    · rw [hook_reject_empty s tx hlen' hy hty hc h0]
      exact ⟨rfl, (by decide : (-1 : Int) ≠ 0), rfl⟩
    · rw [hook_reject_currency s tx hlen' hy hty hc]
      exact ⟨rfl, (by decide : (-1 : Int) ≠ 0), rfl⟩
  refine ⟨key.1, key.2.1, key.2.2, ?_⟩
  unfold step
  rw [key.1]
  rfl

/-- An instance of C5: a Payment in the reward currency at genesis. -/
theorem hook_payment_empty_rejects_witness :
    (hook genesis (samplePayment 1 "CULT")).accepted = false ∧
    (hook genesis (samplePayment 1 "CULT")).code ≠ 0 ∧
    (hook genesis (samplePayment 1 "CULT")).state.yearly_emission = none ∧
    (step genesis (samplePayment 1 "CULT")).yearly_emission = none :=
  hook_payment_empty_rejects genesis (samplePayment 1 "CULT") rfl rfl

/-- C6: a transaction whose staking year is outside [1,5] (of any kind, so in
particular every Stake and every Distribute) is rejected with a nonzero code
before any state mutation: the working state at the rollback is the prior
state, no event has been emitted, and the committed state is the prior state. -/
theorem hook_bad_year_rejects (s : HookState) (tx : Tx)
    (hy : ¬ (1 ≤ tx.staking_year ∧ tx.staking_year ≤ 5)) :
    (hook s tx).accepted = false ∧ (hook s tx).code ≠ 0 ∧
    (hook s tx).state = s ∧ (hook s tx).emitted = [] ∧ step s tx = s := by
  have key : (hook s tx).accepted = false ∧ (hook s tx).code ≠ 0 ∧
      (hook s tx).state = s ∧ (hook s tx).emitted = [] := by
    by_cases hlen : tx.txtype_len < 0
    · rw [hook_reject_len s tx hlen]
      exact ⟨rfl, ne_of_lt hlen, rfl, rfl⟩
    · rw [hook_reject_year s tx (not_lt.mp hlen) hy]
      exact ⟨rfl, (by decide : (-1 : Int) ≠ 0), rfl, rfl⟩
  refine ⟨key.1, key.2.1, key.2.2.1, key.2.2.2, ?_⟩
  unfold step
  rw [key.1]
  rfl

/-- Instances of C6: a Stake in year 6 and a Payment in year 0. -/
theorem hook_bad_year_rejects_witness :
    ((hook genesis (sampleStake 6 0 1000)).accepted = false ∧
      (hook genesis (sampleStake 6 0 1000)).code ≠ 0 ∧
      (hook genesis (sampleStake 6 0 1000)).state = genesis ∧
      (hook genesis (sampleStake 6 0 1000)).emitted = [] ∧
      step genesis (sampleStake 6 0 1000) = genesis) ∧
    (hook genesis (samplePayment 0 "CULT")).accepted = false :=
  ⟨hook_bad_year_rejects genesis (sampleStake 6 0 1000) (by decide),
   (hook_bad_year_rejects genesis (samplePayment 0 "CULT") (by decide)).1⟩

/-- C7, as stated, fails: at genesis no stake record is stored, yet an Unstake
with year 1 is accepted with code 0 and drives the counter to -1. -/
theorem unstake_without_record_counterexample :
    noRecord genesis ∧
    (sampleUnstake 1 1000).txtype = TxType.NFTokenAcceptOffer ∧
    (hook genesis (sampleUnstake 1 1000)).accepted = true ∧
    (hook genesis (sampleUnstake 1 1000)).code = 0 ∧
    (step genesis (sampleUnstake 1 1000)).total_staked = -1 := by
  decide

/-- C7 amended: on a state in which no stake record is stored (counter inside
the `int64_t` range), an Unstake whose type was read and whose staking year is
in [1,5] is accepted with code 0 and decrements the counter by one; the payout
of its "NFT Unstaked" event is computed from what the locals `stake_time` and
`rewards` held before the two `state_get` calls.  Otherwise the Unstake is
rejected with a nonzero code and the state is unchanged.  The hook has no check
for a missing record. -/
theorem unstake_without_record (s : HookState) (tx : Tx)
    (hno : noRecord s)
    (hty : tx.txtype = TxType.NFTokenAcceptOffer)
    (h1 : -(2 : Int) ^ 63 < s.total_staked) (h2 : s.total_staked < 2 ^ 63) :
    ((0 ≤ tx.txtype_len ∧ 1 ≤ tx.staking_year ∧ tx.staking_year ≤ 5) →
      (hook s tx).accepted = true ∧ (hook s tx).code = 0 ∧
      ("NFT Unstaked",
        if (tx.ledger_last_time % 2 ^ 32 + 2 ^ 32 - tx.stake_time_init % 2 ^ 32) % 2 ^ 32
            < 604800 then
          tx.rewards_init % 2 ^ 64 * 75 % 2 ^ 64 / 100
        else tx.rewards_init % 2 ^ 64) ∈ (hook s tx).emitted ∧
      (step s tx).total_staked = s.total_staked - 1 ∧ noRecord (step s tx)) ∧
    (¬ (0 ≤ tx.txtype_len ∧ 1 ≤ tx.staking_year ∧ tx.staking_year ≤ 5) →
      (hook s tx).accepted = false ∧ (hook s tx).code ≠ 0 ∧ step s tx = s) := by
  constructor
  · rintro ⟨hlen, hy⟩
    have hk := hook_unstake_eq s tx hlen hy hty
    rw [hno.1, hno.2] at hk
    have hw : wrapS64 (s.total_staked - 1) = s.total_staked - 1 :=
      wrapS64_of_range _ (by omega) (by omega)
    have hacc : (hook s tx).accepted = true := by rw [hk]; rfl
    rw [step_of_accepted s tx hacc, hk, hw]
    refine ⟨rfl, rfl, ?_, rfl, rfl, rfl⟩
    simp only [accept, List.mem_append, List.mem_singleton, state_get]
    exact Or.inr trivial
  · intro hbad
    by_cases hlen : tx.txtype_len < 0
    · have hk := hook_reject_len s tx hlen
      have hf : (hook s tx).accepted = false := by rw [hk]; rfl
      rw [step_of_rejected s tx hf, hk]
      exact ⟨rfl, ne_of_lt hlen, rfl⟩
    · have hlen' : 0 ≤ tx.txtype_len := not_lt.mp hlen
      have hy : ¬ (1 ≤ tx.staking_year ∧ tx.staking_year ≤ 5) := fun h => hbad ⟨hlen', h⟩
      have hk := hook_reject_year s tx hlen' hy
      have hf : (hook s tx).accepted = false := by rw [hk]; rfl
      rw [step_of_rejected s tx hf, hk]
      exact ⟨rfl, (by decide : (-1 : Int) ≠ 0), rfl⟩

/-- An instance of C7 amended: an Unstake in year 1 at genesis is accepted and
leaves the counter at -1; the same Unstake in year 9 is rejected. -/
theorem unstake_without_record_witness :
    ((hook genesis (sampleUnstake 1 1000)).accepted = true ∧
      (hook genesis (sampleUnstake 1 1000)).code = 0 ∧
      ("NFT Unstaked", 0) ∈ (hook genesis (sampleUnstake 1 1000)).emitted ∧
      (step genesis (sampleUnstake 1 1000)).total_staked = genesis.total_staked - 1 ∧
      noRecord (step genesis (sampleUnstake 1 1000))) ∧
    ((hook genesis (sampleUnstake 9 1000)).accepted = false ∧
      (hook genesis (sampleUnstake 9 1000)).code ≠ 0 ∧
      step genesis (sampleUnstake 9 1000) = genesis) :=
  ⟨(unstake_without_record genesis (sampleUnstake 1 1000) (by decide) rfl
      (by decide) (by decide)).1 (by decide),
   (unstake_without_record genesis (sampleUnstake 9 1000) (by decide) rfl
      (by decide) (by decide)).2 (by decide)⟩

/-- C8, as stated, fails: from genesis, one Unstake is accepted and committed
and the counter is then negative. -/
theorem total_staked_nonneg_counterexample :
    (hook genesis (sampleUnstake 1 1000)).accepted = true ∧
    (run genesis [sampleUnstake 1 1000]).total_staked = -1 ∧
    ¬ (0 ≤ (run genesis [sampleUnstake 1 1000]).total_staked) := by
  decide

/-- C8 amended: from genesis, after every sequence of fewer than `2^63`
transactions, the counter equals the number of accepted Stakes minus the number
of accepted Unstakes; it is non-negative exactly when at least as many Stakes
as Unstakes have been accepted. -/
theorem total_staked_from_genesis (txs : List Tx) (hlen : txs.length < 2 ^ 63) :
    (run genesis txs).total_staked
      = (acceptedOfType TxType.NFTokenCreateOffer genesis txs : Int)
        - (acceptedOfType TxType.NFTokenAcceptOffer genesis txs : Int) ∧
    (0 ≤ (run genesis txs).total_staked ↔
      acceptedOfType TxType.NFTokenAcceptOffer genesis txs
        ≤ acceptedOfType TxType.NFTokenCreateOffer genesis txs) := by
  have hg : genesis.total_staked = 0 := rfl
  have h := run_total_staked txs genesis
    (by rw [hg]; norm_num at hlen ⊢; omega) (by rw [hg]; norm_num at hlen ⊢; omega)
  rw [hg] at h
  refine ⟨by rw [h]; ring, ?_⟩
  rw [h]
  omega

/-- An instance of C8 amended: two Stakes and one Unstake leave the counter at
1; one Stake and two Unstakes leave it at -1. -/
theorem total_staked_from_genesis_witness :
    (run genesis [sampleStake 1 0 10, sampleStake 1 0 20, sampleUnstake 1 30]).total_staked = 1 ∧
    (run genesis [sampleStake 1 0 10, sampleUnstake 1 20, sampleUnstake 1 30]).total_staked
      = -1 := by
  have h1 := (total_staked_from_genesis
    [sampleStake 1 0 10, sampleStake 1 0 20, sampleUnstake 1 30] (by norm_num)).1
  have h2 := (total_staked_from_genesis
    [sampleStake 1 0 10, sampleUnstake 1 20, sampleUnstake 1 30] (by norm_num)).1
  exact ⟨h1.trans (by decide), h2.trans (by decide)⟩

/-- C9, as stated, fails: from genesis, two committed Stakes of the same
position leave the counter at 2 with one stake record stored. -/
theorem record_count_counterexample :
    (hook genesis (sampleStake 1 0 10)).accepted = true ∧
    (hook (step genesis (sampleStake 1 0 10)) (sampleStake 1 0 20)).accepted = true ∧
    (run genesis [sampleStake 1 0 10, sampleStake 1 0 20]).total_staked = 2 ∧
    recordCount (run genesis [sampleStake 1 0 10, sampleStake 1 0 20]) = 1 := by
  decide

/-- C9 amended: from genesis, after every sequence of transactions in which
each accepted Stake is processed while no stake record is stored and each
accepted Unstake while one is stored, the counter equals the number of stake
records stored. -/
theorem total_staked_eq_record_count (txs : List Tx)
    (halt : alternating genesis txs = true) :
    (run genesis txs).total_staked = (recordCount (run genesis txs) : Int) :=
  run_alternating txs genesis rfl halt

/-- An instance of C9 amended: Stake, Unstake, Stake. -/
theorem total_staked_eq_record_count_witness :
    alternating genesis [sampleStake 1 0 10, sampleUnstake 1 20, sampleStake 2 1 30] = true ∧
    (run genesis [sampleStake 1 0 10, sampleUnstake 1 20, sampleStake 2 1 30]).total_staked
      = (recordCount
          (run genesis [sampleStake 1 0 10, sampleUnstake 1 20, sampleStake 2 1 30]) : Int) :=
  ⟨by decide,
   total_staked_eq_record_count
     [sampleStake 1 0 10, sampleUnstake 1 20, sampleStake 2 1 30] (by decide)⟩

/-- C10, as stated, fails: after a Stake of a position at time 10 its record is
stored; a second Stake of the same position at time 20 is accepted with code 0,
replaces the record and raises the counter from 1 to 2. -/
theorem double_stake_counterexample :
    (step genesis (sampleStake 1 0 10)).total_staked = 1 ∧
    (step genesis (sampleStake 1 0 10)).nft_info = some 10 ∧
    (step genesis (sampleStake 1 0 10)).rewards = some 205479000000 ∧
    (sampleStake 1 0 20).nft_id = (sampleStake 1 0 10).nft_id ∧
    (hook (step genesis (sampleStake 1 0 10)) (sampleStake 1 0 20)).accepted = true ∧
    (hook (step genesis (sampleStake 1 0 10)) (sampleStake 1 0 20)).code = 0 ∧
    (step (step genesis (sampleStake 1 0 10)) (sampleStake 1 0 20)).total_staked = 2 ∧
    (step (step genesis (sampleStake 1 0 10)) (sampleStake 1 0 20)).nft_info = some 20 ∧
    (step (step genesis (sampleStake 1 0 10)) (sampleStake 1 0 20)).rewards
      = some 102739500000 := by
  decide

/-- C10 amended: on a state in which a stake record is already stored and whose
counter is `t` with `0 ≤ t < 2^63 - 1`, a Stake (valid year, sell flag set) is
accepted with code 0; the committed state has counter `t + 1` and holds the
new timestamp and the new rate, so the stored record `(a, b)` is replaced
whenever the new values differ from it.  The hook has no check for an existing
record. -/
theorem double_stake_overwrites (s : HookState) (tx : Tx) (t a b : Nat)
    (hinfo : s.nft_info = some a) (hrew : s.rewards = some b)
    (hlen : 0 ≤ tx.txtype_len)
    (hty : tx.txtype = TxType.NFTokenCreateOffer)
    (hflag : tx.flags0 &&& tfSellNFToken ≠ 0)
    (hy : 1 ≤ tx.staking_year ∧ tx.staking_year ≤ 5)
    (ht : s.total_staked = (t : Int)) (hlt : t < 2 ^ 63 - 1) :
    (hook s tx).accepted = true ∧ (hook s tx).code = 0 ∧
    (step s tx).total_staked = s.total_staked + 1 ∧
    (step s tx).nft_info = some (tx.ledger_last_time % 2 ^ 32) ∧
    (step s tx).rewards = some (if tx.inner_circle % 2 ^ 8 ≠ 0 then
        get_daily_emission tx.staking_year / (t + 1) * 120 / 100
      else get_daily_emission tx.staking_year / (t + 1)) ∧
    (tx.ledger_last_time % 2 ^ 32 ≠ a → (step s tx).nft_info ≠ s.nft_info) ∧
    ((if tx.inner_circle % 2 ^ 8 ≠ 0 then
        get_daily_emission tx.staking_year / (t + 1) * 120 / 100
      else get_daily_emission tx.staking_year / (t + 1)) ≠ b →
      (step s tx).rewards ≠ s.rewards) := by
  have hk := hook_stake_exact s tx t hlen hty hflag hy ht hlt
  have hacc : (hook s tx).accepted = true := by rw [hk]; rfl
  rw [step_of_accepted s tx hacc, hk, ht, hinfo, hrew]
  refine ⟨rfl, rfl, ?_, rfl, rfl, ?_, ?_⟩
  · simp [accept]
  · intro hne h
    exact hne (Option.some.inj h)
  · intro hne h
    exact hne (Option.some.inj h)

/-- An instance of C10 amended: the second Stake of the counterexample. -/
theorem double_stake_overwrites_witness :
    (hook (step genesis (sampleStake 1 0 10)) (sampleStake 1 0 20)).accepted = true ∧
    (step (step genesis (sampleStake 1 0 10)) (sampleStake 1 0 20)).total_staked
      = (step genesis (sampleStake 1 0 10)).total_staked + 1 ∧
    (step (step genesis (sampleStake 1 0 10)) (sampleStake 1 0 20)).nft_info = some 20 ∧
    (step (step genesis (sampleStake 1 0 10)) (sampleStake 1 0 20)).nft_info
      ≠ (step genesis (sampleStake 1 0 10)).nft_info := by
  have h := double_stake_overwrites (step genesis (sampleStake 1 0 10)) (sampleStake 1 0 20)
    1 10 205479000000 (by decide) (by decide) (by decide) rfl (by decide) (by decide)
    (by decide) (by norm_num)
  exact ⟨h.1, h.2.2.1, h.2.2.2.1, h.2.2.2.2.2.1 (by decide)⟩

/-- C11 at a failing input: position `a` (identifier 32 bytes of 7) is staked at
time 10 in year 1 and its record `(10, 205479000000)` is stored; an accepted
Stake of a different position `b` (32 bytes of 9) at time 20 replaces that
record by `(20, 102739500000)`; the Unstake of `a` at time 604810, a full
604800 seconds after `a` was staked, then pays 77054625000, the penalised rate
of `b`. -/
theorem stake_of_other_position_overwrites :
    (sampleStake 1 0 10).nft_id ≠ (sampleStakeB 1 0 20).nft_id ∧
    (sampleUnstake 1 604810).nft_id = (sampleStake 1 0 10).nft_id ∧
    (step genesis (sampleStake 1 0 10)).nft_info = some 10 ∧
    (step genesis (sampleStake 1 0 10)).rewards = some 205479000000 ∧
    (hook (step genesis (sampleStake 1 0 10)) (sampleStakeB 1 0 20)).accepted = true ∧
    (run genesis [sampleStake 1 0 10, sampleStakeB 1 0 20]).nft_info = some 20 ∧
    (run genesis [sampleStake 1 0 10, sampleStakeB 1 0 20]).rewards = some 102739500000 ∧
    (hook (run genesis [sampleStake 1 0 10, sampleStakeB 1 0 20])
        (sampleUnstake 1 604810)).emitted
      = [("Early Unstake Penalty", 77054625000), ("NFT Unstaked", 77054625000)] := by
  decide

/-- C12, as stated, fails: a transaction of an unsupported kind whose staking
year is 0 is rejected with the reason "Invalid staking year". -/
theorem unsupported_reason_counterexample :
    (sampleOther 0).txtype = TxType.Other ∧
    (hook genesis (sampleOther 0)).accepted = false ∧
    (hook genesis (sampleOther 0)).msg = "Invalid staking year" ∧
    (hook genesis (sampleOther 0)).msg ≠ "Unsupported transaction type" := by
  decide

/-- C12 amended: a transaction whose kind is none of offer creation, offer
acceptance or payment is rejected with a nonzero code, no write and no event,
for every state and every input.  The reason is "Unsupported transaction type"
when the type was read and the staking year is in [1,5], "Invalid staking year"
when the type was read and the year is outside [1,5], and "Error getting
transaction type" when the type could not be read. -/
theorem unsupported_rejected (s : HookState) (tx : Tx)
    (hty : tx.txtype = TxType.Other) :
    (hook s tx).accepted = false ∧ (hook s tx).code ≠ 0 ∧
    (hook s tx).state = s ∧ (hook s tx).emitted = [] ∧ step s tx = s ∧
    (0 ≤ tx.txtype_len → (1 ≤ tx.staking_year ∧ tx.staking_year ≤ 5) →
      (hook s tx).msg = "Unsupported transaction type") ∧
    (0 ≤ tx.txtype_len → ¬ (1 ≤ tx.staking_year ∧ tx.staking_year ≤ 5) →
      (hook s tx).msg = "Invalid staking year") ∧
    (tx.txtype_len < 0 → (hook s tx).msg = "Error getting transaction type") := by
  have key : (hook s tx).accepted = false ∧ (hook s tx).code ≠ 0 ∧
      (hook s tx).state = s ∧ (hook s tx).emitted = [] := by
    rcases hook_cases s tx with ⟨m, st, ev, hk⟩ | ⟨m, c, hc, hk⟩
    · have hacc : (hook s tx).accepted = true := by rw [hk]; rfl
      exact absurd hty (hook_accepted_pre s tx hacc).2.2.2.2
    · rw [hk]
      exact ⟨rfl, hc, rfl, rfl⟩
  refine ⟨key.1, key.2.1, key.2.2.1, key.2.2.2, step_of_rejected s tx key.1, ?_, ?_, ?_⟩
  · intro hlen hy
    rw [hook_reject_other s tx hlen hy hty]
    rfl
  · intro hlen hy
    rw [hook_reject_year s tx hlen hy]
    rfl
  · intro hlen
    rw [hook_reject_len s tx hlen]
    rfl

/-- Instances of C12 amended: an unsupported kind in year 1 and in year 0. -/
theorem unsupported_rejected_witness :
    (hook genesis (sampleOther 1)).accepted = false ∧
    (hook genesis (sampleOther 1)).msg = "Unsupported transaction type" ∧
    (hook genesis (sampleOther 0)).msg = "Invalid staking year" ∧
    step genesis (sampleOther 0) = genesis :=
  ⟨(unsupported_rejected genesis (sampleOther 1) rfl).1,
   (unsupported_rejected genesis (sampleOther 1) rfl).2.2.2.2.2.1 (by decide) (by decide),
   (unsupported_rejected genesis (sampleOther 0) rfl).2.2.2.2.2.2.1 (by decide) (by decide),
   (unsupported_rejected genesis (sampleOther 0) rfl).2.2.2.2.1⟩

/-- C13: every invocation of `hook` ends in exactly one outcome.  An accept
carries code 0.  A reject carries a nonzero code, and at the rollback the
working state is the state before the call and no event has been emitted, so
the committed state is the prior state. -/
theorem hook_outcome (s : HookState) (tx : Tx) :
    ((hook s tx).accepted = true ∨ (hook s tx).accepted = false) ∧
    ((hook s tx).accepted = true → (hook s tx).code = 0) ∧
    ((hook s tx).accepted = false →
      (hook s tx).code ≠ 0 ∧ (hook s tx).state = s ∧ (hook s tx).emitted = [] ∧
      step s tx = s) := by
  rcases hook_cases s tx with ⟨m, st, ev, hk⟩ | ⟨m, c, hc, hk⟩
  · refine ⟨Or.inl (by rw [hk]; rfl), fun _ => by rw [hk]; rfl, ?_⟩
    intro hf
    rw [hk] at hf
    exact absurd hf (by simp [accept])
  · have hf : (hook s tx).accepted = false := by rw [hk]; rfl
    refine ⟨Or.inr hf, ?_, ?_⟩
    · intro ht
      rw [hf] at ht
      exact absurd ht (by decide)
    · intro _
      refine ⟨?_, ?_, ?_, step_of_rejected s tx hf⟩
      · rw [hk]; exact hc
      · rw [hk]; rfl
      · rw [hk]; rfl

/-- Instances of C13: an accepted Stake and a rejected Payment at genesis. -/
theorem hook_outcome_witness :
    (hook genesis (sampleStake 1 0 10)).code = 0 ∧
    ((hook genesis (samplePayment 1 "CULT")).code ≠ 0 ∧
      (hook genesis (samplePayment 1 "CULT")).state = genesis ∧
      (hook genesis (samplePayment 1 "CULT")).emitted = [] ∧
      step genesis (samplePayment 1 "CULT") = genesis) :=
  ⟨(hook_outcome genesis (sampleStake 1 0 10)).2.1 (by decide),
   (hook_outcome genesis (samplePayment 1 "CULT")).2.2 (by decide)⟩

/-- C14: with the type read and the staking year in [1,5], an offer creation
whose sell flag is not set (bit `tfSellNFToken` of the byte `flags[0]`) is
rejected with "Invalid staking operation", and a Payment whose currency is not
the reward currency is rejected with "Invalid currency for rewards", both with
a nonzero code, no write and no event; an offer creation with the sell flag set
is accepted, so it is not rejected by the flag check. -/
theorem precondition_rejects (s : HookState) (tx : Tx)
    (hlen : 0 ≤ tx.txtype_len)
    (hy : 1 ≤ tx.staking_year ∧ tx.staking_year ≤ 5) :
    (tx.txtype = TxType.NFTokenCreateOffer → tx.flags0 &&& tfSellNFToken = 0 →
      (hook s tx).accepted = false ∧ (hook s tx).msg = "Invalid staking operation" ∧
      (hook s tx).code ≠ 0 ∧ (hook s tx).state = s ∧ (hook s tx).emitted = [] ∧
      step s tx = s) ∧
    (tx.txtype = TxType.Payment → tx.currency ≠ "CULT" →
      (hook s tx).accepted = false ∧ (hook s tx).msg = "Invalid currency for rewards" ∧
      (hook s tx).code ≠ 0 ∧ (hook s tx).state = s ∧ (hook s tx).emitted = [] ∧
      step s tx = s) ∧
    (tx.txtype = TxType.NFTokenCreateOffer → tx.flags0 &&& tfSellNFToken ≠ 0 →
      (hook s tx).accepted = true ∧ (hook s tx).code = 0 ∧
      (hook s tx).msg ≠ "Invalid staking operation") := by
  have hm1 : (-1 : Int) ≠ 0 := by decide
  refine ⟨?_, ?_, ?_⟩
  · intro hty hflag
    have hk := hook_reject_flag s tx hlen hy hty hflag
    have hf : (hook s tx).accepted = false := by rw [hk]; rfl
    rw [step_of_rejected s tx hf, hk]
    exact ⟨rfl, rfl, hm1, rfl, rfl, rfl⟩
  · intro hty hc
    have hk := hook_reject_currency s tx hlen hy hty hc
    have hf : (hook s tx).accepted = false := by rw [hk]; rfl
    rw [step_of_rejected s tx hf, hk]
    exact ⟨rfl, rfl, hm1, rfl, rfl, rfl⟩
  · intro hty hflag
    obtain ⟨R, -, hk⟩ := hook_stake_eq s tx hlen hy hty hflag
    rw [hk]
    refine ⟨rfl, rfl, ?_⟩
    have hne : ("NFT staked successfully" : String) ≠ "Invalid staking operation" := by decide
    exact hne

/-- Instances of C14: an offer creation with `flags[0] = 0`, a Payment in
another currency, and an offer creation with `flags[0] = 1`. -/
theorem precondition_rejects_witness :
    (hook sampleLedger { sampleStake 1 0 10 with flags0 := 0 }).msg
      = "Invalid staking operation" ∧
    step sampleLedger { sampleStake 1 0 10 with flags0 := 0 } = sampleLedger ∧
    (hook sampleLedger (samplePayment 1 "XRP")).msg = "Invalid currency for rewards" ∧
    step sampleLedger (samplePayment 1 "XRP") = sampleLedger ∧
    (hook sampleLedger (sampleStake 1 0 10)).accepted = true := by
  have h1 := (precondition_rejects sampleLedger { sampleStake 1 0 10 with flags0 := 0 }
    (by decide) (by decide)).1 rfl (by decide)
  have h2 := (precondition_rejects sampleLedger (samplePayment 1 "XRP")
    (by decide) (by decide)).2.1 rfl (by decide)
  have h3 := (precondition_rejects sampleLedger (sampleStake 1 0 10)
    (by decide) (by decide)).2.2 rfl (by decide)
  exact ⟨h1.2.1, h1.2.2.2.2.2, h2.2.1, h2.2.2.2.2.2, h3.1⟩

/-- C15: no wrap in the Stake and Unstake products.  For every staking year in
[1,5], every counter after the increment `n ≥ 1` (an `int64_t` value) and every
`is_inner_circle`, the product `(daily_emission / n) * 120` is below `2^64`, the
stake rate equals the exact integer formula and is at most 493149600000.  Every
accepted Stake stores such a rate `r`, and for it the penalty product `r * 75`
is below `2^64`, so the 64-bit penalised payout equals `r * 75 / 100`. -/
theorem stake_unstake_no_wrap :
    (∀ year n ic : Nat, 1 ≤ year ∧ year ≤ 5 → 1 ≤ n → n < 2 ^ 63 →
      get_daily_emission year / n * 120 < 2 ^ 64 ∧
      stake_reward_per_nft (get_daily_emission year) (n : Int) ic
        = (if ic ≠ 0 then get_daily_emission year / n * 120 / 100
           else get_daily_emission year / n) ∧
      stake_reward_per_nft (get_daily_emission year) (n : Int) ic ≤ 493149600000) ∧
    (∀ (s : HookState) (tx : Tx), tx.txtype = TxType.NFTokenCreateOffer →
      (hook s tx).accepted = true →
      ∃ r : Nat, (hook s tx).state.rewards = some r ∧
        r = stake_reward_per_nft (get_daily_emission tx.staking_year)
              (wrapS64 (s.total_staked + 1)) (tx.inner_circle % 2 ^ 8) ∧
        r ≤ 493149600000 ∧ r * 75 < 2 ^ 64 ∧
        (r * EARLY_UNSTAKE_PENALTY) % 2 ^ 64 / 100 = r * 75 / 100) := by
  constructor
  · intro year n ic _ hn hlt
    have hde := get_daily_emission_le year
    have hde' : get_daily_emission year * 120 < 2 ^ 64 := by norm_num; omega
    refine ⟨lt_of_le_of_lt (Nat.mul_le_mul_right _ (Nat.div_le_self _ _)) hde', ?_, ?_⟩
    · exact stake_reward_per_nft_exact _ n ic hn hlt hde'
    · exact stake_reward_per_nft_le year n ic
  · intro s tx hty hacc
    obtain ⟨hlen, hy, hfl, -, -⟩ := hook_accepted_pre s tx hacc
    have hk := hook_stake_rate s tx hlen hy hty (hfl hty)
    have hle := stake_reward_per_nft_le tx.staking_year (wrapS64 (s.total_staked + 1))
      (tx.inner_circle % 2 ^ 8)
    have h75 : stake_reward_per_nft (get_daily_emission tx.staking_year)
        (wrapS64 (s.total_staked + 1)) (tx.inner_circle % 2 ^ 8) * 75 < 2 ^ 64 :=
      lt_of_le_of_lt (Nat.mul_le_mul_right 75 hle) (by norm_num)
    refine ⟨_, by rw [hk]; rfl, rfl, hle, h75, ?_⟩
    simp only [EARLY_UNSTAKE_PENALTY, Nat.mod_eq_of_lt h75]

/-- Instances of C15: year 3 with one staker and the bonus reaches the bound
493149600000; the Stake of the second position in year 2 stores 205479600000. -/
theorem stake_unstake_no_wrap_witness :
    stake_reward_per_nft (get_daily_emission 3) 1 1 = 493149600000 ∧
    (∃ r : Nat,
      (hook (step genesis (sampleStake 2 0 1000)) (sampleStake 2 1 2000)).state.rewards
        = some r ∧ r ≤ 493149600000 ∧ r * 75 < 2 ^ 64) := by
  have h1 := (stake_unstake_no_wrap.1 3 1 1 (by decide) (by decide) (by norm_num)).2.1
  obtain ⟨r, hr, -, hle, h75, -⟩ := stake_unstake_no_wrap.2
    (step genesis (sampleStake 2 0 1000)) (sampleStake 2 1 2000) rfl (by decide)
  exact ⟨h1.trans (by decide), r, hr, hle, h75⟩

/-- C16, as stated, fails: for a daily emission of 1000000 and a counter of 7
the stake-rate formula and `daily_emission * 120 / (100 * total_staked)` give
the same value, 171428. -/
theorem bonus_order_counterexample :
    stake_reward_per_nft 1000000 7 1 = 171428 ∧
    1000000 * 120 / (100 * 7) = 171428 ∧
    ¬ (stake_reward_per_nft 1000000 7 1 ≠ 1000000 * 120 / (100 * 7)) := by
  decide

/-- C16 amended: the stake rate with the bonus is
`(daily_emission / total_staked) * 120 / 100`, the division by the counter
first.  At a daily emission of 1000000 and a counter of 7 this equals
`daily_emission * 120 / (100 * total_staked)`; the two orders differ at other
inputs, such as a daily emission of 1000000 and a counter of 3 (399999 against
400000) and the year-2 emission and a counter of 3. -/
theorem bonus_order :
    (∀ de n : Nat, 1 ≤ n → n < 2 ^ 63 → de * 120 < 2 ^ 64 →
      stake_reward_per_nft de (n : Int) 1 = de / n * 120 / 100) ∧
    stake_reward_per_nft 1000000 7 1 = 1000000 * 120 / (100 * 7) ∧
    stake_reward_per_nft 1000000 3 1 = 399999 ∧
    1000000 * 120 / (100 * 3) = 400000 ∧
    stake_reward_per_nft (get_daily_emission 2) 3 1
      ≠ get_daily_emission 2 * 120 / (100 * 3) := by
  refine ⟨?_, by decide, by decide, by decide, by decide⟩
  intro de n hn hlt hde
  rw [stake_reward_per_nft_exact de n 1 hn hlt hde]
  rfl

/-- An instance of C16 amended: daily emission 1000000 and counter 3. -/
theorem bonus_order_witness :
    stake_reward_per_nft 1000000 3 1 = 1000000 / 3 * 120 / 100 ∧
    1000000 / 3 * 120 / 100 ≠ 1000000 * 120 / (100 * 3) :=
  ⟨bonus_order.1 1000000 3 (by decide) (by norm_num) (by norm_num), by decide⟩

/-- C17: on a state with no stake record stored and counter `t ≥ 0` (an
`int64_t` value), an accepted Stake followed immediately by an accepted Unstake
(of the same position or of any other) yields the state before the Stake:
counter `t`, both cells of the record cleared, audit record unchanged.  The
same Stake is then accepted again. -/
theorem stake_unstake_restores (s : HookState) (tx1 tx2 : Tx)
    (hno : noRecord s)
    (h0 : 0 ≤ s.total_staked) (h1 : s.total_staked < 2 ^ 63)
    (hty1 : tx1.txtype = TxType.NFTokenCreateOffer)
    (hacc1 : (hook s tx1).accepted = true)
    (hty2 : tx2.txtype = TxType.NFTokenAcceptOffer)
    (hacc2 : (hook (step s tx1) tx2).accepted = true) :
    (step (step s tx1) tx2).total_staked = s.total_staked ∧
    noRecord (step (step s tx1) tx2) ∧
    (step (step s tx1) tx2).yearly_emission = s.yearly_emission ∧
    step (step s tx1) tx2 = s ∧
    (hook (step (step s tx1) tx2) tx1).accepted = true := by
  obtain ⟨hlen1, hy1, hfl1, -, -⟩ := hook_accepted_pre s tx1 hacc1
  obtain ⟨hlen2, hy2, -, -, -⟩ := hook_accepted_pre (step s tx1) tx2 hacc2
  obtain ⟨R, -, hk1⟩ := hook_stake_eq s tx1 hlen1 hy1 hty1 (hfl1 hty1)
  have hk2 := hook_unstake_eq (step s tx1) tx2 hlen2 hy2 hty2
  have hs1 : (step s tx1).total_staked = wrapS64 (s.total_staked + 1) := by
    rw [step_of_accepted s tx1 hacc1, hk1]; rfl
  have hy1' : (step s tx1).yearly_emission = s.yearly_emission := by
    rw [step_of_accepted s tx1 hacc1, hk1]; rfl
  have hw : wrapS64 (wrapS64 (s.total_staked + 1) - 1) = s.total_staked := by
    unfold wrapS64
    norm_num at h1 ⊢
    omega
  have hfinal : step (step s tx1) tx2 = s := by
    rw [step_of_accepted _ tx2 hacc2, hk2, hs1, hy1', hw]
    obtain ⟨t, i, r, y⟩ := s
    obtain ⟨hi, hr⟩ := hno
    simp only at hi hr
    subst hi hr
    rfl
  rw [hfinal]
  exact ⟨rfl, hno, rfl, rfl, hacc1⟩

/-- An instance of C17 on the genesis state. -/
theorem stake_unstake_restores_witness :
    step (step genesis (sampleStake 2 1 1000)) (sampleUnstake 2 2000) = genesis ∧
    (hook (step (step genesis (sampleStake 2 1 1000)) (sampleUnstake 2 2000))
      (sampleStake 2 1 1000)).accepted = true := by
  have h := stake_unstake_restores genesis (sampleStake 2 1 1000) (sampleUnstake 2 2000)
    (by decide) (by decide) (by decide) rfl (by decide) rfl (by decide)
  exact ⟨h.2.2.2.1, h.2.2.2.2⟩

/-- C18: the rate stored by a Stake does not grow with the number of stakers.
Two valid Stakes in the same staking year bring the counter to `n` and to `m`
with `1 ≤ n ≤ m`; with the same `is_inner_circle` value the rate stored at `m`
is at most the rate stored at `n`; and when `n = m` and the first Stake has no
bonus, its rate is at most the rate of the second, bonus or not. -/
theorem stake_rate_monotone (s1 s2 : HookState) (tx1 tx2 : Tx) (n m : Nat)
    (hv1 : validStake tx1) (hv2 : validStake tx2)
    (hyear : tx1.staking_year = tx2.staking_year)
    (hs1 : s1.total_staked + 1 = (n : Int)) (hs2 : s2.total_staked + 1 = (m : Int))
    (hn : 1 ≤ n) (hnm : n ≤ m) (hm : m < 2 ^ 63) :
    ∃ r1 r2 : Nat,
      (hook s1 tx1).state.total_staked = (n : Int) ∧
      (hook s1 tx1).state.rewards = some r1 ∧
      (hook s2 tx2).state.total_staked = (m : Int) ∧
      (hook s2 tx2).state.rewards = some r2 ∧
      (tx1.inner_circle % 2 ^ 8 = tx2.inner_circle % 2 ^ 8 → r2 ≤ r1) ∧
      (n = m → tx1.inner_circle % 2 ^ 8 = 0 → r1 ≤ r2) := by
  obtain ⟨hlen1, hty1, hfl1, hy1⟩ := hv1
  obtain ⟨hlen2, hty2, hfl2, hy2⟩ := hv2
  have hk1 := hook_stake_rate s1 tx1 hlen1 hy1 hty1 hfl1
  have hk2 := hook_stake_rate s2 tx2 hlen2 hy2 hty2 hfl2
  have hnlt : n < 2 ^ 63 := lt_of_le_of_lt hnm hm
  have hw1 : wrapS64 (s1.total_staked + 1) = (n : Int) := by
    rw [hs1]
    exact wrapS64_of_range _ (by norm_num; omega) (by exact_mod_cast hnlt)
  have hw2 : wrapS64 (s2.total_staked + 1) = (m : Int) := by
    rw [hs2]
    exact wrapS64_of_range _ (by norm_num; omega) (by exact_mod_cast hm)
  have hde := get_daily_emission_le tx2.staking_year
  have hde' : get_daily_emission tx2.staking_year * 120 < 2 ^ 64 := by norm_num; omega
  rw [hw1, hyear] at hk1
  rw [hw2] at hk2
  rw [stake_reward_per_nft_exact _ n _ hn hnlt hde'] at hk1
  rw [stake_reward_per_nft_exact _ m _ (le_trans hn hnm) hm hde'] at hk2
  have hdiv : get_daily_emission tx2.staking_year / m
      ≤ get_daily_emission tx2.staking_year / n :=
    Nat.div_le_div_left hnm (by omega)
  refine ⟨_, _, by rw [hk1]; rfl, by rw [hk1]; rfl, by rw [hk2]; rfl, by rw [hk2]; rfl,
    ?_, ?_⟩
  · intro hic
    rw [hic]
    split_ifs
    · exact Nat.div_le_div_right (Nat.mul_le_mul_right 120 hdiv)
    · exact hdiv
  · intro hnm' hic
    subst hnm'
    rw [if_neg (not_not.mpr hic)]
    split_ifs
    · generalize get_daily_emission tx2.staking_year / n = b
      omega
    · exact le_refl _

/-- An instance of C18: year 2, a bonus Stake as second and as fourth staker. -/
theorem stake_rate_monotone_witness :
    ∃ r1 r2 : Nat,
      (hook (step genesis (sampleStake 2 0 1000)) (sampleStake 2 1 2000)).state.rewards
        = some r1 ∧
      (hook sampleLedger (sampleStakeB 2 1 3000)).state.rewards = some r2 ∧
      r2 ≤ r1 := by
  obtain ⟨r1, r2, -, h1, -, h2, hle, -⟩ :=
    stake_rate_monotone (step genesis (sampleStake 2 0 1000)) sampleLedger
      (sampleStake 2 1 2000) (sampleStakeB 2 1 3000) 2 4
      (by decide) (by decide) rfl (by decide) (by decide) (by decide) (by decide)
      (by norm_num)
  exact ⟨r1, r2, h1, h2, hle (by decide)⟩

/-- C19: an accepted distribution on a state with `n > 0` positions (an
`int64_t` value) emits the rate `q = daily_emission / n`, and
`q * n ≤ daily_emission < (q + 1) * n`: it never pays out more than the daily
pool and loses less than one unit per staker. -/
theorem distribution_bounds (s : HookState) (tx : Tx) (n : Nat)
    (hlen : 0 ≤ tx.txtype_len)
    (hty : tx.txtype = TxType.Payment)
    (hcur : tx.currency = "CULT")
    (hy : 1 ≤ tx.staking_year ∧ tx.staking_year ≤ 5)
    (hn : s.total_staked = (n : Int)) (hpos : 0 < n) (hlt : n < 2 ^ 63) :
    ∃ q : Nat,
      (hook s tx).emitted = [("Daily Reward Distribution", q)] ∧
      q = get_daily_emission tx.staking_year / n ∧
      q * n ≤ get_daily_emission tx.staking_year ∧
      get_daily_emission tx.staking_year < (q + 1) * n := by
  have h0 : s.total_staked ≠ 0 := by rw [hn]; exact_mod_cast hpos.ne.symm
  have hu : toU64 s.total_staked = n := by
    rw [hn]
    exact toU64_natCast n (lt_trans hlt (by norm_num))
  refine ⟨get_daily_emission tx.staking_year / n, ?_, rfl, Nat.div_mul_le_self _ _, ?_⟩
  · rw [hook_payment_eq s tx hlen hy hty hcur h0, hu]
    rfl
  · have h1 := Nat.div_add_mod (get_daily_emission tx.staking_year) n
    have h2 := Nat.mod_lt (get_daily_emission tx.staking_year) hpos
    calc get_daily_emission tx.staking_year
        = n * (get_daily_emission tx.staking_year / n)
            + get_daily_emission tx.staking_year % n := h1.symm
      _ < n * (get_daily_emission tx.staking_year / n) + n := Nat.add_lt_add_left h2 _
      _ = (get_daily_emission tx.staking_year / n + 1) * n := by ring

/-- An instance of C19: year 2 with three positions staked; the emitted rate
114155333333 loses one unit of the pool of 342466000000. -/
theorem distribution_bounds_witness :
    ∃ q : Nat,
      (hook sampleLedger (samplePayment 2 "CULT")).emitted
        = [("Daily Reward Distribution", q)] ∧
      q = 114155333333 ∧ q * 3 ≤ 342466000000 ∧ 342466000000 < (q + 1) * 3 := by
  obtain ⟨q, he, hq, hle, hlt⟩ := distribution_bounds sampleLedger (samplePayment 2 "CULT") 3
    (by decide) rfl rfl (by decide) rfl (by decide) (by norm_num)
  exact ⟨q, he, hq.trans (by decide), hle, hlt⟩

/-- C20: the dynamic emission hook.  With `active_nfts = 0` it returns 0 and
emits nothing.  With `active_nfts = n > 0` it returns 0 and emits exactly one
reward: `500000 / n`, then times 120 over 100 when `isInnerCircle` is nonzero,
then times 75 over 100 when `isEarlyUnstake` is nonzero, each division
truncating; neither product wraps and the reward is at most 600000. -/
theorem dynamic_emission_reward (inner_circle early_unstake : Nat) :
    DynamicEmission.hook 0 inner_circle early_unstake = { ret := 0, emitted := [] } ∧
    (∀ n : Nat, 0 < n →
      ∃ b r : Nat,
        b = (if inner_circle % 2 ^ 8 ≠ 0 then 500000 / n * 120 / 100 else 500000 / n) ∧
        r = (if early_unstake % 2 ^ 8 ≠ 0 then b * 75 / 100 else b) ∧
        DynamicEmission.hook n inner_circle early_unstake
          = { ret := 0, emitted := [("Daily Distribution", "CULT", r)] } ∧
        500000 / n * 120 < 2 ^ 64 ∧ b * 75 < 2 ^ 64 ∧ r ≤ 600000) := by
  constructor
  · rfl
  · intro n hn
    have hq : 500000 / n ≤ 500000 := Nat.div_le_self _ _
    have hq120 : 500000 / n * 120 < 2 ^ 64 := by
      generalize 500000 / n = q at hq
      norm_num
      omega
    have hb : (if inner_circle % 2 ^ 8 ≠ 0 then 500000 / n * 120 / 100 else 500000 / n)
        ≤ 600000 := by
      generalize 500000 / n = q at hq
      split_ifs <;> omega
    have hb75 : (if inner_circle % 2 ^ 8 ≠ 0 then 500000 / n * 120 / 100 else 500000 / n)
        * 75 < 2 ^ 64 :=
      lt_of_le_of_lt (Nat.mul_le_mul_right 75 hb) (by norm_num)
    refine ⟨_, _, rfl, rfl, ?_, hq120, hb75, ?_⟩
    · unfold DynamicEmission.hook
      simp only [if_neg hn.ne.symm, Nat.mod_eq_of_lt hq120]
      generalize (if inner_circle % 2 ^ 8 ≠ 0 then 500000 / n * 120 / 100 else 500000 / n)
        = b at hb75
      simp only [Nat.mod_eq_of_lt hb75]
    · generalize (if inner_circle % 2 ^ 8 ≠ 0 then 500000 / n * 120 / 100 else 500000 / n)
        = b at hb
      split_ifs <;> omega

/-- Instances of C20: three active positions with both flags set emit 149999;
one active position with the bonus alone emits 600000. -/
theorem dynamic_emission_reward_witness :
    DynamicEmission.hook 3 1 1
      = { ret := 0, emitted := [("Daily Distribution", "CULT", 149999)] } ∧
    DynamicEmission.hook 1 1 0
      = { ret := 0, emitted := [("Daily Distribution", "CULT", 600000)] } := by
  obtain ⟨b, r, hb, hr, hk, -, -, -⟩ := (dynamic_emission_reward 1 1).2 3 (by decide)
  obtain ⟨b2, r2, hb2, hr2, hk2, -, -, -⟩ := (dynamic_emission_reward 1 0).2 1 (by decide)
  have e1 : r = 149999 := by rw [hr, hb]; decide
  have e2 : r2 = 600000 := by rw [hr2, hb2]; decide
  rw [e1] at hk
  rw [e2] at hk2
  exact ⟨hk, hk2⟩

end CultStaking
